import Mathlib

/-!
# Verification of the telegram link summarizer agent

Shallow embedding of the routing/fallback pipeline of the repository
(`agent.py`, `bot.py`, and the tools it calls) and proofs about its
routing, fallback, formatting and error-propagation behaviour.

External services (the BAML LLM router, Tavily extract, the Twitter API,
the YouTube helpers, the LLM summarizer, HTTP fetches) are modelled as
oracle values passed into the embedded functions: each oracle value is the
result (or raised exception, as `Except.error`) of the single call the
node performs.
-/

namespace LinkSummarizer

/-! ## Python string primitives

Models of the Python `str` operations the source uses: `strip()`,
`split()`, `lower()`, `startswith`, substring membership (`in`), and
truthiness of strings / optional strings.
-/

/-- The characters Python's `str.strip()` / `str.split()` treat as whitespace. -/
def isPySpace (c : Char) : Bool :=
  c = ' ' || c = '\t' || c = '\n' || c = '\r' || c = '\x0b' || c = '\x0c'

/-- Python `str.strip()` on a character list. -/
def stripList (cs : List Char) : List Char :=
  ((cs.dropWhile isPySpace).reverse.dropWhile isPySpace).reverse

/-- Python `s.strip()`. -/
def pyStrip (s : String) : String :=
  String.mk (stripList s.toList)

/-- Python `s.lower()` (ASCII is all the source needs). -/
def pyLower (s : String) : String :=
  String.mk (s.toList.map Char.toLower)

/-- Python `s.startswith(p)`. -/
def pyStartsWith (s p : String) : Bool :=
  p.toList.isPrefixOf s.toList

/-- Helper for `str.split()`: split a character list on whitespace runs,
dropping empty words. -/
def splitWSAux : List Char → List Char → List String
  | [], acc => if acc.isEmpty then [] else [String.mk acc.reverse]
  | c :: rest, acc =>
    if isPySpace c then
      if acc.isEmpty then splitWSAux rest [] else String.mk acc.reverse :: splitWSAux rest []
    else splitWSAux rest (c :: acc)

/-- Python `s.split()` (no argument: split on whitespace runs, no empties). -/
def pySplitWS (s : String) : List String :=
  splitWSAux s.toList []

/-- Python substring membership `needle in hay` on character lists. -/
def containsSub (needle : List Char) : List Char → Bool
  | [] => needle.isEmpty
  | c :: rest => needle.isPrefixOf (c :: rest) || containsSub needle rest

/-- Truthiness of a Python string: non-empty. -/
def truthyStr (s : String) : Bool := s ≠ ""

/-- Truthiness of an `Optional[str]`: present and non-empty. -/
def truthyOpt (o : Option String) : Bool :=
  match o with
  | some s => truthyStr s
  | none => false

/-- Python `a or b` for `a : Optional[str]`, `b : str`. -/
def pyOrS (a : Option String) (b : String) : String :=
  match a with
  | some s => if s ≠ "" then s else b
  | none => b

/-! ## Model of `re.sub(r"\n\s*\n", "\n\n", s)`

Python's `re.sub` scans left to right; a match starts at a `'\n'`, the
greedy `\s*` then backtracks so that the match ends at the last `'\n'`
inside the whitespace run that follows, the whole match is replaced by
`"\n\n"`, and scanning resumes after the match (the replacement text is
not rescanned).
-/

/-- Index of the last `'\n'` in a character list, if any. -/
def lastNlIdx (ws : List Char) : Option Nat :=
  match ws.reverse.findIdx? (· = '\n') with
  | none => none
  | some k => some (ws.length - 1 - k)

/-- After an initial `'\n'`, try to match `\s*\n` greedily against `cs`:
on success return the remainder of the input after the whole match. -/
def matchBlankTail (cs : List Char) : Option (List Char) :=
  match lastNlIdx (cs.takeWhile isPySpace) with
  | none => none
  | some p => some (cs.drop (p + 1))

/-- Fuelled scanner for the substitution (fuel `≥` length always suffices,
the fuel-exhausted branch is unreachable when started with full fuel). -/
def collapseFuel : Nat → List Char → List Char
  | 0, cs => cs
  | _ + 1, [] => []
  | f + 1, c :: rest =>
    if c = '\n' then
      match matchBlankTail rest with
      | some rest' => '\n' :: '\n' :: collapseFuel f rest'
      | none => '\n' :: collapseFuel f rest
    else c :: collapseFuel f rest

/-- Model of `re.sub(r"\n\s*\n", "\n\n", s)`. -/
def collapseBlank (s : String) : String :=
  String.mk (collapseFuel s.toList.length s.toList)

theorem collapseBlank_example : collapseBlank "a\n\n \t\nb\n\nc" = "a\n\nb\n\nc" := by decide

/-! ## The summary markdown rendering (`summarize_content`, agent.py 475-497) -/

/-- The structured summary returned by the BAML `SummarizeContent` call. -/
structure Summary where
  title : String
  key_points : List String
  concise_summary : String
deriving Repr, DecidableEq

/-- The markdown rendering of a summary result (agent.py lines 483-497):
falsy title defaults to `"Summary"`, falsy points are dropped and the rest
stripped, falsy concise summary defaults, the pieces are concatenated,
blank-line runs are collapsed and the result stripped. -/
def formatSummary (r : Summary) : String :=
  let title := if truthyStr r.title then r.title else "Summary"
  let key_points := (r.key_points.filter truthyStr).map pyStrip
  let concise := if truthyStr r.concise_summary then pyStrip r.concise_summary
    else "No summary generated."
  let s1 := "# " ++ title ++ "\n\n"
  let s2 :=
    if key_points.isEmpty then s1
    else s1 ++ "## Key Points:\n" ++
      String.join (key_points.map (fun point => "- " ++ point ++ "\n")) ++ "\n"
  let s3 := s2 ++ "## Summary:\n" ++ concise
  pyStrip (collapseBlank s3)

/-! ## Data model (`AgentState`, agent.py 32-40)

LangGraph semantics: each node returns a partial update (a dict holding
only some keys); the orchestrator merges it into the running state
key-by-key (last write wins, and a key explicitly set to `None`
overwrites).  `run_agent` iterates `graph.astream` in `updates` mode, so
its `final_state` is the *last node's partial update*, not the merged
state; the embedding tracks both.
-/

/-- BAML `ContentType`. -/
inductive ContentType | Webpage | PDF
deriving Repr, DecidableEq

/-- The pipeline state threaded through the LangGraph run (agent.py 32-40). -/
structure AgentState where
  original_message : String
  url : String
  content_type : ContentType
  content : String
  summary : String
  error : Option String
  route_decision : Option String
  needs_web_fallback : Bool
deriving Repr, DecidableEq

/-- A node's partial state update: `none` means the key is absent from the
returned dict; for the `Optional[str]`-valued keys a present value is
itself an `Option String`. -/
structure Update where
  original_message : Option String := none
  url : Option String := none
  content_type : Option ContentType := none
  content : Option String := none
  summary : Option String := none
  error : Option (Option String) := none
  route_decision : Option (Option String) := none
  needs_web_fallback : Option Bool := none
deriving Repr, DecidableEq

/-- Merge a partial update into the state (LangGraph channel update). -/
def applyUpdate (s : AgentState) (u : Update) : AgentState where
  original_message := u.original_message.getD s.original_message
  url := u.url.getD s.url
  content_type := u.content_type.getD s.content_type
  content := u.content.getD s.content
  summary := u.summary.getD s.summary
  error := u.error.getD s.error
  route_decision := u.route_decision.getD s.route_decision
  needs_web_fallback := u.needs_web_fallback.getD s.needs_web_fallback

/-- BAML `ExtractorTool` enum returned by the LLM router. -/
inductive ExtractorTool
  | WebpageExtractor | PDFExtractor | TwitterExtractor
  | LinkedInExtractor | YoutubeExtractor | Unsupported
deriving Repr, DecidableEq

/-- One entry of Tavily extract's `results` list. -/
structure TavilyItem where
  url : Option String
  raw_content : Option String
  content : Option String
deriving Repr, DecidableEq

/-- The Tavily extract response consumed by `get_web_content`. -/
structure TavilyRes where
  results : List TavilyItem
  failed_results : List String
deriving Repr, DecidableEq

/-- Value returned by `fetch_youtube_content_with_fallbacks`:
a content string, or a dict carrying an `"error"` key (and possibly
`"details"`). -/
inductive YoutubeRes
  | strRes (s : String)
  | dictRes (e : String) (details : Option String)
deriving Repr, DecidableEq

/-- Value returned by `scrape_linkedin_post`: an error string or a dict
with optional `content` / `source_url` fields. -/
inductive LinkedInRes
  | strRes (s : String)
  | dictRes (content : Option String) (source_url : Option String)
deriving Repr, DecidableEq

/-- The external-call results of one run; `Except.error e` models the call
raising an exception whose string rendering is `e`. -/
structure Oracles where
  route : Except String ExtractorTool
  tavily : Except String TavilyRes
  pdf : Except String String
  twitter : Except String String
  linkedin : Except String LinkedInRes
  youtube : Except String YoutubeRes
  summarizer : Except String Summary

/-! ## Graph nodes (agent.py 46-512) -/

/-- Node `init_state` (agent.py 46-66): the first whitespace-separated word
starting with `"http"` becomes the url; otherwise a no-URL error. -/
def init_state (msg : String) : Update :=
  let url? := (pySplitWS msg).find? (fun w => pyStartsWith w "http")
  { original_message := some msg
    url := some (url?.getD "")
    content_type := some ContentType.Webpage
    content := some ""
    summary := some ""
    error := some (match url? with
      | some _ => none
      | none => some "No URL found in the message.")
    route_decision := some none
    needs_web_fallback := some false }

/-- Node `llm_router` (agent.py 69-123) as a function of the current state's
error and the BAML `RouteRequest` result.  (The `else` arm for an
unexpected enum value is unreachable once every enum member is handled.) -/
def llm_router (stError : Option String) (route : Except String ExtractorTool) : Update :=
  if truthyOpt stError then
    { error := some stError, route_decision := some (some "__error__") }
  else
    match route with
    | .error e =>
      { route_decision := some (some "__error__")
        error := some (some ("LLM Router failed: " ++ e)) }
    | .ok .WebpageExtractor => { route_decision := some (some "web_extractor"), error := some none }
    | .ok .PDFExtractor => { route_decision := some (some "pdf_extractor"), error := some none }
    | .ok .TwitterExtractor => { route_decision := some (some "twitter_extractor"), error := some none }
    | .ok .LinkedInExtractor => { route_decision := some (some "linkedin_extractor"), error := some none }
    | .ok .YoutubeExtractor => { route_decision := some (some "youtube_extractor"), error := some none }
    | .ok .Unsupported =>
      { route_decision := some (some "__unsupported__")
        error := some (some "Unsupported URL type or no URL found by LLM Router.") }

/-- Node `get_web_content` (agent.py 126-186) as a function of the url and the
Tavily extract response (`Except.error` also covers `run_tavily_tool`
returning an error string, on which `.get` raises `AttributeError`). -/
def get_web_content (_url : String) (tavily : Except String TavilyRes) : Update :=
  match tavily with
  | .error e =>
    { content_type := some ContentType.Webpage
      content := some ""
      error := some (some ("Error: An unexpected error occurred while getting content from the URL. " ++ e))
      needs_web_fallback := some false }
  | .ok res =>
    let content_source := res.results.foldl
      (fun acc r =>
        let raw := if truthyOpt r.raw_content then r.raw_content.getD "" else r.content.getD ""
        if truthyStr raw then
          acc ++ "URL: " ++ r.url.getD "N/A" ++ "\n" ++ "Raw Content: " ++ raw ++ "\n\n"
        else acc) ""
    let error1 : Option String :=
      if res.failed_results.isEmpty then none
      else some ("Tavily failed to extract content from: " ++ String.intercalate ", " res.failed_results)
    let error2 : Option String :=
      if ¬ truthyStr content_source ∧ ¬ truthyOpt error1 then
        some "Tavily extract did not return any content for the URL."
      else error1
    { content_type := some ContentType.Webpage
      content := some (pyStrip content_source)
      error := some error2
      needs_web_fallback := some false }

/-- Node `get_twitter_content` (agent.py 189-239) as a function of the
`fetch_tweet_thread` result. -/
def get_twitter_content (tool : Except String String) : Update :=
  match tool with
  | .error e =>
    { content_type := some ContentType.Webpage
      content := some ""
      error := some (some ("Error: An unexpected error occurred while calling the Twitter tool. " ++ e))
      needs_web_fallback := some false }
  | .ok r =>
    if pyStartsWith r "Error:" then
      { content_type := some ContentType.Webpage, content := some ""
        error := some (some r), needs_web_fallback := some false }
    else if ¬ truthyStr r then
      { content_type := some ContentType.Webpage, content := some ""
        error := some (some "Twitter tool returned no content."), needs_web_fallback := some false }
    else
      { content_type := some ContentType.Webpage, content := some (pyStrip r)
        error := some none, needs_web_fallback := some false }

/-- Node `get_linkedin_content` (agent.py 242-304) as a function of the
`scrape_linkedin_post` result. -/
def get_linkedin_content (tool : Except String LinkedInRes) : Update :=
  match tool with
  | .error e =>
    { content_type := some ContentType.Webpage
      content := some ""
      error := some (some ("Error: An unexpected error occurred while calling the LinkedIn tool. " ++ e))
      needs_web_fallback := some false }
  | .ok (.strRes s) =>
    if pyStartsWith s "Error:" then
      { content_type := some ContentType.Webpage, content := some ""
        error := some (some s), needs_web_fallback := some false }
    else
      { content_type := some ContentType.Webpage, content := some ""
        error := some (some "LinkedIn tool returned unexpected result or no content: <class 'str'>")
        needs_web_fallback := some false }
  | .ok (.dictRes c _) =>
    if truthyOpt c then
      { content_type := some ContentType.Webpage, content := some (pyStrip (c.getD ""))
        error := some none, needs_web_fallback := some false }
    else
      { content_type := some ContentType.Webpage, content := some ""
        error := some (some "LinkedIn tool returned unexpected result or no content: <class 'dict'>")
        needs_web_fallback := some false }

/-- Node `get_youtube_content` (agent.py 307-382) as a function of the
`fetch_youtube_content_with_fallbacks` result: on the specific
`youtube_fallback_failed` dict it clears the error and raises the
fallback flag; on any other error dict it fails without fallback. -/
def get_youtube_content (tool : Except String YoutubeRes) : Update :=
  match tool with
  | .error e =>
    { content_type := some ContentType.Webpage
      content := some ""
      error := some (some ("Error: An unexpected error occurred while calling the YouTube tool function. " ++ e))
      needs_web_fallback := some false }
  | .ok (.dictRes e _) =>
    if e = "youtube_fallback_failed" then
      { content_type := some ContentType.Webpage, content := some ""
        error := some none, needs_web_fallback := some true }
    else
      { content_type := some ContentType.Webpage, content := some ""
        error := some (some ("YouTube tool encountered an error: " ++ e))
        needs_web_fallback := some false }
  | .ok (.strRes s) =>
    { content_type := some ContentType.Webpage, content := some (pyStrip s)
      error := some none, needs_web_fallback := some false }

/-- Node `handle_pdf_content` (agent.py 385-427) as a function of the
`get_pdf_text` result. -/
def handle_pdf_content (tool : Except String String) : Update :=
  match tool with
  | .error e =>
    { content := some ""
      content_type := some ContentType.PDF
      error := some (some ("Error: An unexpected error occurred while processing the PDF. " ++ e))
      needs_web_fallback := some false }
  | .ok t =>
    if pyStartsWith t "Error:" then
      { content := some "", content_type := some ContentType.PDF
        error := some (some t), needs_web_fallback := some false }
    else if ¬ truthyStr t then
      { content := some "", content_type := some ContentType.PDF
        error := some (some "PDF extraction returned no text."), needs_web_fallback := some false }
    else
      { content := some (pyStrip t), content_type := some ContentType.PDF
        error := some none, needs_web_fallback := some false }

/-- Node `summarize_content` (agent.py 430-512) as a function of the merged
state and the BAML `SummarizeContent` result. -/
def summarize_content (s : AgentState) (o : Except String Summary) : Update :=
  if truthyOpt s.error then
    { summary := some "", error := some s.error }
  else if ¬ truthyStr s.content ∨ pyStrip s.content = "" then
    { summary := some "", error := some (some (pyOrS s.error "No content found to summarize.")) }
  else
    match o with
    | .error e => { summary := some "", error := some (some ("Summarization failed: " ++ e)) }
    | .ok r => { summary := some (formatSummary r), error := some none }

/-! ## Conditional edges (agent.py 518-610) -/

/-- Target of the router's conditional edge. -/
inductive RouteTarget
  | web | pdf | twitter | linkedin | youtube | end_
deriving Repr, DecidableEq

/-- Edge function `route_based_on_llm` (agent.py 518-562): a pure function of the merged
state; an error or any unrecognised decision goes to `END`. -/
def route_based_on_llm (s : AgentState) : RouteTarget :=
  if truthyOpt s.error then RouteTarget.end_
  else
    match s.route_decision with
    | some "web_extractor" => RouteTarget.web
    | some "pdf_extractor" => RouteTarget.pdf
    | some "twitter_extractor" => RouteTarget.twitter
    | some "linkedin_extractor" => RouteTarget.linkedin
    | some "youtube_extractor" => RouteTarget.youtube
    | _ => RouteTarget.end_

/-- Python `content and isinstance(content, str) and content.strip() != ""`. -/
def hasContent (c : String) : Bool :=
  truthyStr c && (pyStrip c ≠ "")

/-- Target of the post-extraction conditional edge. -/
inductive SumRoute
  | web_extractor | summarize_content | end_
deriving Repr, DecidableEq

/-- Edge function `should_summarize` (agent.py 565-610).  Priority: fallback flag, then
error, then content, else `END`.  It returns only the next-node label and
performs no state write (the `state["error"] = final_error` in the
no-content branch is commented out in the source). -/
def should_summarize (s : AgentState) : SumRoute :=
  if s.needs_web_fallback then SumRoute.web_extractor
  else if truthyOpt s.error then SumRoute.end_
  else if hasContent s.content then SumRoute.summarize_content
  else SumRoute.end_

/-- What the orchestrator does at the post-extraction boundary: the edge
function selects the next node and the state passes through unchanged. -/
inductive PostExtraction
  | toWeb (s : AgentState)
  | toSummarize (s : AgentState)
  | terminated (s : AgentState)
deriving Repr, DecidableEq

/-- The post-extraction step induced by `should_summarize`: conditional
edges never modify the state, so the terminal state is the input state. -/
def postExtractionStep (s : AgentState) : PostExtraction :=
  match should_summarize s with
  | SumRoute.web_extractor => PostExtraction.toWeb s
  | SumRoute.summarize_content => PostExtraction.toSummarize s
  | SumRoute.end_ => PostExtraction.terminated s

/-! ## Graph execution (`build_graph` + `run_agent`, agent.py 616-804) -/

/-- The nodes added by `build_graph` (agent.py 620-627). -/
def graphNodes : List String :=
  ["init", "llm_router", "web_extractor", "pdf_extractor", "twitter_extractor",
   "linkedin_extractor", "youtube_extractor", "summarize_content"]

/-- The state the run starts from: `inputs = {"original_message": message}`
with the remaining channels at their defaults; `init` runs first and
overwrites every field. -/
def seedState (msg : String) : AgentState :=
  { original_message := msg, url := "", content_type := ContentType.Webpage
    content := "", summary := "", error := none, route_decision := none
    needs_web_fallback := false }

/-- The extractor node selected by the router edge, with its node name. -/
def pickExtractor (o : Oracles) (url : String) : RouteTarget → Option (Update × String)
  | RouteTarget.web => some (get_web_content url o.tavily, "web_extractor")
  | RouteTarget.pdf => some (handle_pdf_content o.pdf, "pdf_extractor")
  | RouteTarget.twitter => some (get_twitter_content o.twitter, "twitter_extractor")
  | RouteTarget.linkedin => some (get_linkedin_content o.linkedin, "linkedin_extractor")
  | RouteTarget.youtube => some (get_youtube_content o.youtube, "youtube_extractor")
  | RouteTarget.end_ => none

/-- Execution after an extractor node `name` produced update `uE`,
yielding merged state `s3`: follow `should_summarize`'s edge, running the
web extractor once more on a YouTube fallback request (only the youtube
node raises the flag and the web node resets it, so that branch cannot
repeat). -/
def runPostExtraction (o : Oracles) (name : String) (s3 : AgentState) (uE : Update) :
    AgentState × Update × List String :=
  match should_summarize s3 with
  | SumRoute.end_ => (s3, uE, ["init", "llm_router", name])
  | SumRoute.summarize_content =>
    let uS := summarize_content s3 o.summarizer
    (applyUpdate s3 uS, uS, ["init", "llm_router", name, "summarize_content"])
  | SumRoute.web_extractor =>
    let uW := get_web_content s3.url o.tavily
    let s4 := applyUpdate s3 uW
    match should_summarize s4 with
    | SumRoute.summarize_content =>
      let uS := summarize_content s4 o.summarizer
      (applyUpdate s4 uS, uS,
        ["init", "llm_router", name, "web_extractor", "summarize_content"])
    | _ =>
      (s4, uW, ["init", "llm_router", name, "web_extractor"])

/-- Execute the compiled graph on one message: returns the merged final
state, the last node's partial update (what `run_agent`'s streaming loop
keeps as `final_state`), and the visited node names in order. -/
def runGraph (o : Oracles) (msg : String) : AgentState × Update × List String :=
  let s0 := seedState msg
  let u1 := init_state msg
  let s1 := applyUpdate s0 u1
  let u2 := llm_router s1.error o.route
  let s2 := applyUpdate s1 u2
  match pickExtractor o s2.url (route_based_on_llm s2) with
  | none => (s2, u2, ["init", "llm_router"])
  | some (uE, name) => runPostExtraction o name (applyUpdate s2 uE) uE

/-- Branches 2-3 of `run_agent`'s final rendering (agent.py 767-794):
what is returned when there is no usable summary. -/
def formatFinalTail (u : Update) : String :=
  let finalError : Option String := u.error.getD none
  if truthyOpt finalError then
    let e := finalError.getD ""
    if pyStartsWith (pyLower e) "error:" then e else "Error: " ++ e
  else if ¬ truthyOpt u.content then
    if u.route_decision.getD none = some "__unsupported__" then
      "Error: The provided link type is not supported or no URL was found."
    else
      "Error: Agent finished without extracting content."
  else
    "Error: Agent finished. Content was extracted, but no summary was generated and no specific error was reported."

/-- The tail of `run_agent` (agent.py 753-794): turn the last node's
update into the returned string.  The `Union[str, None]` signature
notwithstanding, every path returns a string. -/
def formatFinal (u : Update) : String :=
  let summaryOk : Bool := match u.summary with
    | some t => pyStrip t != ""
    | none => false
  if summaryOk then (u.summary.getD "") else formatFinalTail u

/-- Result of one `run_agent` call. -/
structure RunOut where
  finalState : AgentState
  lastUpdate : Update
  visited : List String
  result : String
deriving Repr, DecidableEq

/-- Function `run_agent` (agent.py 708-804). -/
def run_agent (o : Oracles) (msg : String) : RunOut :=
  let r := runGraph o msg
  ⟨r.1, r.2.1, r.2.2, formatFinal r.2.1⟩

/-! ## The transport shim's use of the result (bot.py 89-150) -/

/-- What `handle_message` does with the agent result. -/
inductive BotAction
  | reply (text : String)
  | silent
deriving Repr, DecidableEq

/-- bot.py 93-150: reply with the text only when the agent returned a
string not starting with `"Error:"`; otherwise fail silently. -/
def handleAgentResult (r : Option String) : BotAction :=
  match r with
  | some t => if ¬ pyStartsWith t "Error:" then BotAction.reply t else BotAction.silent
  | none => BotAction.silent

/-! ## `get_pdf_text` (tools/pdf_handler.py 4-40) -/

/-- The HTTP interaction of `get_pdf_text`: a raised
`requests.RequestException` (including `raise_for_status`), or a response
with a `Content-Type` header and a body whose PDF parse either raises a
`fitz` error or yields the per-page `get_text()` strings. -/
inductive PdfFetch
  | reqError (e : String)
  | resp (contentType : String) (parse : Except String (List String))
deriving Repr

/-- Function `get_pdf_text` (tools/pdf_handler.py): any response whose lowered
`Content-Type` header does not contain `"application/pdf"` is rejected
before parsing; otherwise the page texts are concatenated. -/
def get_pdf_text (url : String) (o : PdfFetch) : String :=
  match url, o with
  | _, .reqError e => "Error downloading PDF: " ++ e
  | _, .resp ctHeader parse =>
    let content_type := pyLower ctHeader
    if ¬ containsSub "application/pdf".toList content_type.toList then
      "Error: URL does not point to a PDF file (Content-Type: " ++ content_type ++ ")"
    else
      match parse with
      | .error e => "Error processing PDF: " ++ e
      | .ok pages => String.join pages

/-! ## `fetch_tweet_thread` (tools/twitter_api_tool.py 32-156) -/

/-- One tweet object of the twitterapi.io response.  `createdAtKey`
abstracts `_parse_twitter_datetime createdAt` (a UTC timestamp used only
as the sort key; parse failures map to the epoch, i.e. `0`). -/
structure TweetData where
  id : String
  conversationId : Option String
  createdAt : Option String
  createdAtKey : Nat
  author : Option String
  text : String
deriving Repr, DecidableEq

/-- A twitterapi.io response body. -/
structure TwitterApiResp where
  status : String
  msg : Option String
  tweets : List TweetData
deriving Repr, DecidableEq

/-- The external interactions of one `fetch_tweet_thread` call. -/
structure TwitterOracle where
  apiKey : Option String
  mainResp : Except String TwitterApiResp
  convResp : Except String TwitterApiResp
deriving Repr

/-- Match `/status(?:es)?/(\d+)` at the head of `cs`, returning the
greedily captured digits. -/
def tryStatusAt (cs : List Char) : Option String :=
  if "/statuses/".toList.isPrefixOf cs then
    let ds := (cs.drop 10).takeWhile Char.isDigit
    if ds.isEmpty then none else some (String.mk ds)
  else if "/status/".toList.isPrefixOf cs then
    let ds := (cs.drop 8).takeWhile Char.isDigit
    if ds.isEmpty then none else some (String.mk ds)
  else none

/-- Model of `re.search(r"/status(?:es)?/(\d+)", url)`: leftmost match wins. -/
def findStatusId : List Char → Option String
  | [] => none
  | c :: rest =>
    match tryStatusAt (c :: rest) with
    | some ds => some ds
    | none => findStatusId rest

/-- Stable insertion keeping existing equal-key elements first
(Python `list.sort` is stable, ascending). -/
def insertByKey (t : TweetData) : List TweetData → List TweetData
  | [] => [t]
  | h :: rest =>
    if t.createdAtKey < h.createdAtKey then t :: h :: rest
    else h :: insertByKey t rest

/-- Python `all_tweets.sort(key=...)`. -/
def sortByKey (l : List TweetData) : List TweetData :=
  l.foldl (fun acc t => insertByKey t acc) []

/-- The numbered `@author (timestamp): text` lines (twitter_api_tool.py
142-151). -/
def formatTweets (l : List TweetData) : List String :=
  l.enum.map (fun p =>
    "Tweet " ++ toString (p.1 + 1) ++ "/" ++ toString l.length ++ " by @" ++
      p.2.author.getD "unknown_user" ++ " (" ++ p.2.createdAt.getD "Unknown time" ++ "):\n" ++
      pyStrip p.2.text ++ "\n---")

/-- Function `fetch_tweet_thread` (tools/twitter_api_tool.py 32-156): the root
fetch is fatal on failure; the conversation fetch degrades to the root
tweet alone on any failure. -/
def fetch_tweet_thread (url : String) (o : TwitterOracle) : String :=
  match o.apiKey with
  | none => "Error: X_API_KEY or X-API-KEY not found in environment variables."
  | some _ =>
    match findStatusId url.toList with
    | none => "Error: Could not extract Tweet ID from URL: " ++ url
    | some tweet_id =>
      match o.mainResp with
      | .error e =>
        "Error: Network or API error fetching main tweet " ++ tweet_id ++ ": " ++ e
      | .ok data =>
        let failMsg := "Error: Failed to fetch main tweet " ++ tweet_id ++
          ". API Status: " ++ data.status ++ ", Msg: " ++ data.msg.getD "Unknown error"
        if data.status ≠ "success" then failMsg
        else
          match data.tweets with
          | [] => failMsg
          | main_tweet :: _ =>
            let convOk : Bool := match main_tweet.conversationId with
              | some c => c ≠ "" && c ≠ tweet_id
              | none => false
            let all_tweets : List TweetData :=
              if convOk then
                match o.convResp with
                | .error _ => [main_tweet]
                | .ok cdata =>
                  if cdata.status = "success" ∧ cdata.tweets ≠ [] then
                    main_tweet :: cdata.tweets.filter (fun t => t.id ≠ tweet_id)
                  else [main_tweet]
              else [main_tweet]
            let output_lines := formatTweets (sortByKey all_tweets)
            if output_lines.isEmpty then
              "Error: No tweet data could be formatted for tweet ID " ++ tweet_id ++ "."
            else
              pyStrip (String.intercalate "\n" output_lines)

/-! ## YouTube description merge
(tools/youtube_scraper.py 241-323)

`fetch_youtube_content_with_fallbacks` inserts successful (truthy)
description candidates into `potential_descriptions` in attempt order —
BeautifulSoup (`"bs"`), then yt-dlp (`"dlp"`), then the Data API
(`"api"`) — and selects
`max(potential_descriptions, key=lambda k: len(potential_descriptions[k]))`:
dict iteration is insertion-ordered and Python `max` keeps the first
maximal element, so ties break toward the earliest-attempted source.
-/

/-- Python `max` over the candidate values in insertion order: keeps the
current best and replaces it only on a strictly greater length. -/
def pickLongest : List String → Option String
  | [] => none
  | x :: xs => some (xs.foldl (fun best d => if d.length > best.length then d else best) x)

/-- The candidate list in attempt order (only truthy candidates are
inserted into `potential_descriptions`). -/
def descriptionCandidates (bs dlp api : Option String) : List String :=
  (match bs with
    | some v => if truthyStr v then [v] else []
    | none => []) ++
  (match dlp with
    | some v => if truthyStr v then [v] else []
    | none => []) ++
  (match api with
    | some v => if truthyStr v then [v] else []
    | none => [])

/-- The merged description chosen by
`fetch_youtube_content_with_fallbacks` from the three sources' results. -/
def mergedDescription (bs dlp api : Option String) : Option String :=
  pickLongest (descriptionCandidates bs dlp api)

/-- The spec's words, as a definition: "among all successfully-returned
description strings, choose the one with the greatest character length,
ties broken by earliest-attempted source" — the first list element whose
length no other element exceeds. -/
def specSelectLongest (l : List String) : Option String :=
  l.find? (fun d => l.all (fun e => decide (e.length ≤ d.length)))

/-! ## String infrastructure lemmas -/

theorem toList_append (s t : String) : (s ++ t).toList = s.toList ++ t.toList := rfl

theorem toList_mk (l : List Char) : (String.mk l).toList = l := rfl

theorem string_ext (s t : String) (h : s.toList = t.toList) : s = t := by
  cases s
  cases t
  exact congrArg String.mk h

theorem mk_ne_empty (c : Char) (l : List Char) : String.mk (c :: l) ≠ "" := by
  intro h
  exact List.cons_ne_nil c l (congrArg String.toList h)

theorem isPrefixOf_cons_ne (x y : Char) (xs ys : List Char) (h : x ≠ y) :
    (x :: xs).isPrefixOf (y :: ys) = false := by
  simp [List.isPrefixOf, h]

theorem isPrefixOf_append_of_le (n a b : List Char) (h : n.length ≤ a.length) :
    n.isPrefixOf (a ++ b) = n.isPrefixOf a := by
  induction n generalizing a with
  | nil => simp [List.isPrefixOf]
  | cons x xs ih =>
    cases a with
    | nil => simp at h
    | cons y ys =>
      simp only [List.cons_append, List.isPrefixOf]
      rw [show ys.append b = ys ++ b from rfl, ih ys (by simpa using h)]

theorem pyLower_append (s t : String) : pyLower (s ++ t) = pyLower s ++ pyLower t := by
  apply string_ext
  simp [pyLower, toList_append, toList_mk]

/-- A fixed prefix long enough decides `startswith`. -/
theorem pyStartsWith_append_left (p s t : String) (h : p.toList.length ≤ s.toList.length) :
    pyStartsWith (s ++ t) p = pyStartsWith s p := by
  unfold pyStartsWith
  rw [toList_append, isPrefixOf_append_of_le _ _ _ h]

theorem pyStartsWith_self_append (p t : String) : pyStartsWith (p ++ t) p = true := by
  rw [pyStartsWith_append_left p p t (le_refl _)]
  unfold pyStartsWith
  simp [List.isPrefixOf_iff_prefix]

/-- A string whose first six lowered characters do not read `"error:"`
keeps that property under any suffix. -/
theorem lower_not_error_append (p t : String)
    (h6 : 6 ≤ p.toList.length)
    (hp : pyStartsWith (pyLower p) "error:" = false) :
    pyStartsWith (pyLower (p ++ t)) "error:" = false := by
  rw [pyLower_append]
  rw [pyStartsWith_append_left _ _ _ (by simpa [pyLower, toList_mk] using h6)]
  exact hp

theorem pyStartsWith_error_append (e : String) :
    pyStartsWith ("Error: " ++ e) "Error:" = true := by
  rw [pyStartsWith_append_left _ _ _ (by decide)]
  decide

/-- Stripping a list headed by a non-whitespace character keeps that head. -/
theorem stripList_cons_head (c : Char) (cs : List Char) (h : isPySpace c = false) :
    ∃ ds, stripList (c :: cs) = c :: ds := by
  unfold stripList
  rw [List.dropWhile_cons]
  simp only [h, Bool.false_eq_true, if_false]
  rw [show (c :: cs).reverse = cs.reverse ++ [c] by simp]
  rw [List.dropWhile_append]
  by_cases hd : (List.dropWhile isPySpace cs.reverse).isEmpty
  · simp only [hd, if_true]
    refine ⟨[], ?_⟩
    simp [List.dropWhile_cons, h]
  · simp only [hd, if_false]
    refine ⟨(List.dropWhile isPySpace cs.reverse).reverse, ?_⟩
    simp

/-- A string headed by a non-whitespace character strips to a string with
the same head. -/
theorem pyStrip_head (c : Char) (cs : List Char) (h : isPySpace c = false) :
    ∃ ds, (pyStrip (String.mk (c :: cs))).toList = c :: ds := by
  obtain ⟨ds, hds⟩ := stripList_cons_head c cs h
  exact ⟨ds, by simp [pyStrip, toList_mk, hds]⟩

/-! ## The error-prefix invariant

Every error string the pipeline can store either starts with the exact
prefix `"Error:"` or does not even start with it case-insensitively, so
`run_agent`'s final normalisation (prefix the message with `"Error: "`
unless `final_error.lower().startswith("error:")`) always yields a string
starting with `"Error:"`.
-/

/-- An error string is well-behaved when a case-insensitive `"error:"`
prefix is in fact the exact `"Error:"` prefix. -/
def errOk (e : String) : Prop :=
  pyStartsWith (pyLower e) "error:" = true → pyStartsWith e "Error:" = true

/-- All error values a node update carries are well-behaved. -/
def GoodUpd (u : Update) : Prop :=
  ∀ e, u.error = some (some e) → errOk e

theorem errOk_of_startsWith (e : String) (h : pyStartsWith e "Error:" = true) : errOk e :=
  fun _ => h

theorem startsWith_error_of_start (p t : String)
    (h6 : "Error:".toList.length ≤ p.toList.length)
    (hp : pyStartsWith p "Error:" = true) :
    pyStartsWith (p ++ t) "Error:" = true := by
  rw [pyStartsWith_append_left _ _ _ h6]
  exact hp

theorem errOk_fixed (p t : String)
    (h6 : 6 ≤ p.toList.length)
    (hp : pyStartsWith (pyLower p) "error:" = false) :
    errOk (p ++ t) := by
  intro hcon
  rw [lower_not_error_append p t h6 hp] at hcon
  exact absurd hcon (by simp)

theorem errOk_error_start (p t : String)
    (h6 : "Error:".toList.length ≤ p.toList.length)
    (hp : pyStartsWith p "Error:" = true) :
    errOk (p ++ t) :=
  errOk_of_startsWith _ (startsWith_error_of_start p t h6 hp)

/-- A string starting with `"Error:"` is non-empty. -/
theorem ne_empty_of_startsWith_error (s : String) (h : pyStartsWith s "Error:" = true) :
    s ≠ "" := by
  intro he
  subst he
  exact absurd h (by decide)

theorem pyOrS_of_not_truthy (a : Option String) (b : String) (h : truthyOpt a = false) :
    pyOrS a b = b := by
  cases a with
  | none => rfl
  | some s =>
    simp only [truthyOpt, truthyStr] at h
    simp [pyOrS, of_decide_eq_false h]

theorem pyStrip_empty : pyStrip "" = "" := rfl

/-- When there is no usable summary, `run_agent` returns a non-empty
string starting with `"Error:"`. -/
theorem formatFinalTail_shape (u : Update) (hu : GoodUpd u) :
    formatFinalTail u ≠ "" ∧ pyStartsWith (formatFinalTail u) "Error:" = true := by
  unfold formatFinalTail
  by_cases ht : truthyOpt (u.error.getD none) = true
  · obtain ⟨e0, he⟩ : ∃ e0, u.error.getD none = some e0 := by
      cases h : u.error.getD none with
      | none => rw [h] at ht; exact absurd ht (by decide)
      | some x => exact ⟨x, rfl⟩
    have hgood : errOk e0 := by
      apply hu
      cases hu2 : u.error with
      | none => rw [hu2] at he; exact absurd he (by simp [Option.getD])
      | some v => rw [hu2] at he; simp only [Option.getD_some] at he; rw [he]
    simp only [he, Option.getD_some] at ht ⊢
    simp only [ht, if_true]
    by_cases hl : pyStartsWith (pyLower e0) "error:" = true
    · have hsE := hgood hl
      simp only [hl, if_true]
      exact ⟨ne_empty_of_startsWith_error _ hsE, hsE⟩
    · simp only [Bool.not_eq_true] at hl
      simp only [hl, Bool.false_eq_true, if_false]
      exact ⟨ne_empty_of_startsWith_error _ (pyStartsWith_error_append e0),
        pyStartsWith_error_append e0⟩
  · simp only [Bool.not_eq_true] at ht
    simp only [ht, Bool.false_eq_true, if_false]
    constructor
    · split_ifs <;> decide
    · split_ifs <;> decide

/-- The result normalisation at the end of `run_agent`. -/
theorem formatFinal_shape (u : Update) (hu : GoodUpd u) :
    formatFinal u ≠ "" ∧
      (pyStartsWith (formatFinal u) "Error:" = true ∨
        (u.summary = some (formatFinal u) ∧ pyStrip (formatFinal u) ≠ "")) := by
  unfold formatFinal
  cases hsum : u.summary with
  | some t =>
    by_cases hts : pyStrip t = ""
    · simp only [hts, bne_self_eq_false, Bool.false_eq_true, if_false]
      exact ⟨(formatFinalTail_shape u hu).1, Or.inl (formatFinalTail_shape u hu).2⟩
    · have hbv : (pyStrip t != "") = true := by simp [hts]
      simp only [hbv, if_true, Option.getD_some]
      refine ⟨?_, Or.inr ⟨by simp, hts⟩⟩
      intro he
      rw [he] at hts
      exact hts pyStrip_empty
  | none =>
    simp only [Bool.false_eq_true, if_false]
    exact ⟨(formatFinalTail_shape u hu).1, Or.inl (formatFinalTail_shape u hu).2⟩

theorem goodUpd_init (msg : String) : GoodUpd (init_state msg) := by
  intro e he
  cases hf : (pySplitWS msg).find? (fun w => pyStartsWith w "http") with
  | some w =>
    simp only [init_state, hf, Option.some.injEq] at he
    exact absurd he (by simp)
  | none =>
    simp only [init_state, hf, Option.some.injEq] at he
    rw [← he]
    exact fun hcon => absurd hcon (by decide)

theorem goodUpd_llm_router (stError : Option String) (route : Except String ExtractorTool)
    (hst : ∀ e, stError = some e → errOk e) :
    GoodUpd (llm_router stError route) := by
  intro e he
  by_cases ht : truthyOpt stError = true
  · simp only [llm_router, ht, if_true, Option.some.injEq] at he
    exact hst e he
  · simp only [Bool.not_eq_true] at ht
    cases route with
    | error msg =>
      simp only [llm_router, ht, Bool.false_eq_true, if_false, Option.some.injEq] at he
      rw [← he]
      exact errOk_fixed "LLM Router failed: " msg (by decide) (by decide)
    | ok t =>
      cases t <;>
        simp only [llm_router, ht, Bool.false_eq_true, if_false, Option.some.injEq] at he <;>
        first
          | exact he.elim
          | exact absurd he (by simp)
          | (rw [← he]; exact fun hcon => absurd hcon (by decide))

theorem goodErr_web (url : String) (tav : Except String TavilyRes) :
    (get_web_content url tav).error ≠ none ∧ GoodUpd (get_web_content url tav) := by
  cases tav with
  | error e =>
    refine ⟨by simp [get_web_content], ?_⟩
    intro x hx
    simp only [get_web_content, Option.some.injEq] at hx
    rw [← hx]
    exact errOk_error_start
      "Error: An unexpected error occurred while getting content from the URL. " e
      (by decide) (by decide)
  | ok res =>
    refine ⟨?_, ?_⟩
    · simp only [get_web_content]
      split_ifs <;> simp
    · intro x hx
      simp only [get_web_content, Option.some.injEq] at hx
      split_ifs at hx <;> simp only [Option.some.injEq] at hx <;>
        first
          | exact hx.elim
          | exact absurd hx (by simp)
          | (rw [← hx]; exact fun hcon => absurd hcon (by decide))
          | (rw [← hx];
             exact errOk_fixed "Tavily failed to extract content from: " _ (by decide) (by decide))

theorem goodErr_twitter (t : Except String String) :
    (get_twitter_content t).error ≠ none ∧ GoodUpd (get_twitter_content t) := by
  cases t with
  | error e =>
    refine ⟨by simp [get_twitter_content], ?_⟩
    intro x hx
    simp only [get_twitter_content, Option.some.injEq] at hx
    rw [← hx]
    exact errOk_error_start
      "Error: An unexpected error occurred while calling the Twitter tool. " e
      (by decide) (by decide)
  | ok r =>
    refine ⟨?_, ?_⟩
    · simp only [get_twitter_content]
      split_ifs <;> simp
    · intro x hx
      simp only [get_twitter_content] at hx
      split_ifs at hx <;> simp only [Option.some.injEq] at hx <;>
        first
          | exact hx.elim
          | exact absurd hx (by simp)
          | (rw [← hx]; exact errOk_of_startsWith _ (by assumption))
          | (rw [← hx]; exact fun hcon => absurd hcon (by decide))

theorem goodErr_linkedin (t : Except String LinkedInRes) :
    (get_linkedin_content t).error ≠ none ∧ GoodUpd (get_linkedin_content t) := by
  cases t with
  | error e =>
    refine ⟨by simp [get_linkedin_content], ?_⟩
    intro x hx
    simp only [get_linkedin_content, Option.some.injEq] at hx
    rw [← hx]
    exact errOk_error_start
      "Error: An unexpected error occurred while calling the LinkedIn tool. " e
      (by decide) (by decide)
  | ok r =>
    cases r with
    | strRes s =>
      refine ⟨?_, ?_⟩
      · simp only [get_linkedin_content]
        split_ifs <;> simp
      · intro x hx
        simp only [get_linkedin_content] at hx
        split_ifs at hx <;> simp only [Option.some.injEq] at hx <;>
          first
            | exact hx.elim
            | exact absurd hx (by simp)
            | (rw [← hx]; exact errOk_of_startsWith _ (by assumption))
            | (rw [← hx]; exact fun hcon => absurd hcon (by decide))
    | dictRes c src =>
      refine ⟨?_, ?_⟩
      · simp only [get_linkedin_content]
        split_ifs <;> simp
      · intro x hx
        simp only [get_linkedin_content] at hx
        split_ifs at hx <;> simp only [Option.some.injEq] at hx <;>
          first
            | exact hx.elim
            | exact absurd hx (by simp)
            | (rw [← hx]; exact fun hcon => absurd hcon (by decide))

theorem goodErr_youtube (t : Except String YoutubeRes) :
    (get_youtube_content t).error ≠ none ∧ GoodUpd (get_youtube_content t) := by
  cases t with
  | error e =>
    refine ⟨by simp [get_youtube_content], ?_⟩
    intro x hx
    simp only [get_youtube_content, Option.some.injEq] at hx
    rw [← hx]
    exact errOk_error_start
      "Error: An unexpected error occurred while calling the YouTube tool function. " e
      (by decide) (by decide)
  | ok r =>
    cases r with
    | strRes s =>
      refine ⟨by simp [get_youtube_content], ?_⟩
      intro x hx
      simp only [get_youtube_content] at hx
      exact absurd hx (by simp)
    | dictRes e d =>
      refine ⟨?_, ?_⟩
      · simp only [get_youtube_content]
        split_ifs <;> simp
      · intro x hx
        simp only [get_youtube_content] at hx
        split_ifs at hx <;> simp only [Option.some.injEq] at hx <;>
          first
            | exact hx.elim
            | exact absurd hx (by simp)
            | (rw [← hx];
               exact errOk_fixed "YouTube tool encountered an error: " e (by decide) (by decide))

theorem goodErr_pdf (t : Except String String) :
    (handle_pdf_content t).error ≠ none ∧ GoodUpd (handle_pdf_content t) := by
  cases t with
  | error e =>
    refine ⟨by simp [handle_pdf_content], ?_⟩
    intro x hx
    simp only [handle_pdf_content, Option.some.injEq] at hx
    rw [← hx]
    exact errOk_error_start
      "Error: An unexpected error occurred while processing the PDF. " e
      (by decide) (by decide)
  | ok r =>
    refine ⟨?_, ?_⟩
    · simp only [handle_pdf_content]
      split_ifs <;> simp
    · intro x hx
      simp only [handle_pdf_content] at hx
      split_ifs at hx <;> simp only [Option.some.injEq] at hx <;>
        first
          | exact hx.elim
          | exact absurd hx (by simp)
          | (rw [← hx]; exact errOk_of_startsWith _ (by assumption))
          | (rw [← hx]; exact fun hcon => absurd hcon (by decide))

theorem goodUpd_summarize (s : AgentState) (o : Except String Summary)
    (hs : ∀ e, s.error = some e → errOk e) :
    GoodUpd (summarize_content s o) := by
  intro x hx
  simp only [summarize_content] at hx
  split_ifs at hx with h1 h2
  · simp only [Option.some.injEq] at hx
    exact hs x hx
  · simp only [Option.some.injEq] at hx
    rw [← hx, pyOrS_of_not_truthy s.error _ (by simpa using h1)]
    exact fun hcon => absurd hcon (by decide)
  · cases o with
    | error e =>
      simp only [Option.some.injEq] at hx
      rw [← hx]
      exact errOk_fixed "Summarization failed: " e (by decide) (by decide)
    | ok r =>
      simp only [Option.some.injEq] at hx
      exact absurd hx (by simp)

theorem stateErrOk_of_applyUpdate (s : AgentState) (u : Update)
    (hs : ∀ e, s.error = some e → errOk e) (hu : GoodUpd u) :
    ∀ e, (applyUpdate s u).error = some e → errOk e := by
  intro e he
  simp only [applyUpdate] at he
  cases h : u.error with
  | none =>
    rw [h] at he
    simp only [Option.getD_none] at he
    exact hs e he
  | some v =>
    rw [h] at he
    simp only [Option.getD_some] at he
    exact hu e (by rw [h, he])

theorem goodUpd_pickExtractor (o : Oracles) (url : String) (rt : RouteTarget)
    (u : Update) (n : String) (h : pickExtractor o url rt = some (u, n)) :
    GoodUpd u := by
  cases rt <;> simp only [pickExtractor, Option.some.injEq, Prod.mk.injEq] at h
  · exact h.1 ▸ (goodErr_web url o.tavily).2
  · exact h.1 ▸ (goodErr_pdf o.pdf).2
  · exact h.1 ▸ (goodErr_twitter o.twitter).2
  · exact h.1 ▸ (goodErr_linkedin o.linkedin).2
  · exact h.1 ▸ (goodErr_youtube o.youtube).2
  · exact absurd h (by simp)

theorem goodUpd_runPostExtraction (o : Oracles) (name : String) (s3 : AgentState)
    (uE : Update) (h3 : ∀ e, s3.error = some e → errOk e) (huE : GoodUpd uE) :
    GoodUpd ((runPostExtraction o name s3 uE).2.1) := by
  have h4 : ∀ e, (applyUpdate s3 (get_web_content s3.url o.tavily)).error = some e → errOk e :=
    stateErrOk_of_applyUpdate _ _ h3 (goodErr_web s3.url o.tavily).2
  unfold runPostExtraction
  split
  · exact huE
  · exact goodUpd_summarize s3 o.summarizer h3
  · dsimp only
    split
    · exact goodUpd_summarize _ o.summarizer h4
    · exact (goodErr_web s3.url o.tavily).2

theorem seedState_errOk (msg : String) : ∀ e, (seedState msg).error = some e → errOk e := by
  intro e he
  exact absurd he (by simp [seedState])

theorem goodUpd_runGraph (o : Oracles) (msg : String) :
    GoodUpd ((runGraph o msg).2.1) := by
  have h1 : ∀ e, (applyUpdate (seedState msg) (init_state msg)).error = some e → errOk e :=
    stateErrOk_of_applyUpdate _ _ (seedState_errOk msg) (goodUpd_init msg)
  have hu2 : GoodUpd (llm_router (applyUpdate (seedState msg) (init_state msg)).error o.route) :=
    goodUpd_llm_router _ _ h1
  have h2 : ∀ e, (applyUpdate (applyUpdate (seedState msg) (init_state msg))
      (llm_router (applyUpdate (seedState msg) (init_state msg)).error o.route)).error =
        some e → errOk e :=
    stateErrOk_of_applyUpdate _ _ h1 hu2
  unfold runGraph
  dsimp only
  split
  · exact hu2
  · next uE name hpe =>
    exact goodUpd_runPostExtraction o name _ uE
      (stateErrOk_of_applyUpdate _ _ h2 (goodUpd_pickExtractor o _ _ _ _ hpe))
      (goodUpd_pickExtractor o _ _ _ _ hpe)

/-! ## Claim theorems -/

/-- A post-extraction state with no content, no error and no fallback
request (the spec's "extractor bug class"). -/
def emptyExtractionState : AgentState :=
  { original_message := "see https://ex.com", url := "https://ex.com"
    content_type := ContentType.Webpage, content := "", summary := ""
    error := none, route_decision := some "web_extractor", needs_web_fallback := false }

/-- C1 (counterexample): in the no-content/no-error case the claim says a
synthesized generic "extraction produced nothing" error is recorded in
the terminal state; in fact `should_summarize` only returns the `END`
label, the state passes through the conditional edge unchanged, and the
terminal state's `error` field is still `None`. -/
theorem should_summarize_no_error_recorded :
    postExtractionStep emptyExtractionState =
        PostExtraction.terminated emptyExtractionState ∧
      emptyExtractionState.error = none := by
  constructor
  · rfl
  · rfl

/-- C1 (amended): for every post-extraction state with no fallback
request, `should_summarize` routes by the priority error → content →
`END`; the no-content/no-error branch terminates with the state
unchanged (no error is written into it) and the generic message is
synthesized only as `run_agent`'s returned string,
`"Error: Agent finished without extracting content."`. -/
theorem should_summarize_priority (s : AgentState) (h : s.needs_web_fallback = false) :
    postExtractionStep s =
        (if truthyOpt s.error = true then PostExtraction.terminated s
         else if hasContent s.content = true then PostExtraction.toSummarize s
         else PostExtraction.terminated s) ∧
      formatFinal (get_youtube_content (Except.ok (YoutubeRes.strRes ""))) =
        "Error: Agent finished without extracting content." := by
  constructor
  · unfold postExtractionStep should_summarize
    rw [h]
    simp only [Bool.false_eq_true, if_false]
    by_cases h1 : truthyOpt s.error = true
    · simp [h1]
    · simp only [Bool.not_eq_true] at h1
      by_cases h2 : hasContent s.content = true
      · simp [h1, h2]
      · simp only [Bool.not_eq_true] at h2
        simp [h1, h2]
  · decide

theorem should_summarize_priority_witness :
    emptyExtractionState.needs_web_fallback = false ∧
      (postExtractionStep emptyExtractionState =
          (if truthyOpt emptyExtractionState.error = true then
            PostExtraction.terminated emptyExtractionState
           else if hasContent emptyExtractionState.content = true then
            PostExtraction.toSummarize emptyExtractionState
           else PostExtraction.terminated emptyExtractionState) ∧
        formatFinal (get_youtube_content (Except.ok (YoutubeRes.strRes ""))) =
          "Error: Agent finished without extracting content.") :=
  ⟨rfl, should_summarize_priority emptyExtractionState rfl⟩

/-- C10: `run_agent` always returns a string (the embedding is total):
either a string starting with `"Error:"`, or the summary carried by the
final node update, non-empty after stripping; and the transport layer
replies exactly when the result does not carry the `"Error:"` prefix,
failing silently otherwise (also on `None`). -/
theorem run_agent_result_shape (o : Oracles) (msg : String) :
    (run_agent o msg).result ≠ "" ∧
      (pyStartsWith ((run_agent o msg).result) "Error:" = true ∨
        ((run_agent o msg).lastUpdate.summary = some ((run_agent o msg).result) ∧
          pyStrip ((run_agent o msg).result) ≠ "")) ∧
      (∀ t : String, handleAgentResult (some t) =
        if pyStartsWith t "Error:" = true then BotAction.silent else BotAction.reply t) ∧
      handleAgentResult none = BotAction.silent := by
  have hu : GoodUpd ((run_agent o msg).lastUpdate) := goodUpd_runGraph o msg
  have hshape := formatFinal_shape ((run_agent o msg).lastUpdate) hu
  have hres : (run_agent o msg).result = formatFinal ((run_agent o msg).lastUpdate) := rfl
  rw [← hres] at hshape
  refine ⟨hshape.1, hshape.2, ?_, rfl⟩
  intro t
  cases h : pyStartsWith t "Error:" <;> simp [handleAgentResult, h]

/-- C6 (counterexample): the spec's example output has the concise
summary rendered as `"\n s"`, but `summarize_content` strips the concise
summary (`str(concise_summary).strip()`), so the rendered string differs
from the claimed one. -/
theorem formatSummary_example_ne_claimed :
    formatSummary ⟨"T", ["a", " b "], " s "⟩ ≠
      "# T\n\n## Key Points:\n- a\n- b\n\n## Summary:\n s" := by decide

/-- C6 (amended): the rendering of `{title: "T", key_points: ["a", " b "],
concise_summary: " s "}` is exactly `"# T\n\n## Key Points:\n- a\n-
b\n\n## Summary:\ns"` — the concise summary is trimmed exactly like the
key points — and runs of blank lines collapse to a single blank line
(second conjunct: an embedded `"x\n\n\ny"` renders as `"x\n\ny"`). -/
theorem formatSummary_example :
    formatSummary ⟨"T", ["a", " b "], " s "⟩ =
        "# T\n\n## Key Points:\n- a\n- b\n\n## Summary:\ns" ∧
      formatSummary ⟨"T", [], "x\n\n\ny"⟩ = "# T\n\n## Summary:\nx\n\ny" := by
  constructor
  · decide
  · decide

/-- C8 (counterexample): for the URL `https://ex.com/doc.pdf` (whose path
looks like a PDF) with a response whose `Content-Type` is `text/html`,
`get_pdf_text` rejects with an error and never parses the document,
contrary to the claim that the header check is best-effort only. -/
theorem get_pdf_text_header_hard_reject :
    get_pdf_text "https://ex.com/doc.pdf"
        (PdfFetch.resp "text/html" (Except.ok ["parsed page text"])) =
      "Error: URL does not point to a PDF file (Content-Type: text/html)" ∧
    get_pdf_text "https://ex.com/doc.pdf"
        (PdfFetch.resp "text/html" (Except.ok ["parsed page text"])) ≠
      "parsed page text" := by
  constructor
  · decide
  · decide

/-- C8 (amended): the `Content-Type` check is a hard rejection, not
best-effort: for every URL (in particular those whose path looks like a
PDF) and every response whose lowered header does not contain
`"application/pdf"`, `get_pdf_text` returns the content-type error string
and never parses the body. -/
theorem get_pdf_text_header_reject (url ct : String) (parse : Except String (List String))
    (h : containsSub "application/pdf".toList (pyLower ct).toList = false) :
    get_pdf_text url (PdfFetch.resp ct parse) =
      "Error: URL does not point to a PDF file (Content-Type: " ++ pyLower ct ++ ")" := by
  simp only [get_pdf_text]
  rw [h]
  simp

theorem get_pdf_text_header_reject_witness :
    containsSub "application/pdf".toList (pyLower "text/html; charset=utf-8").toList = false ∧
      get_pdf_text "https://ex.com/paper.pdf"
          (PdfFetch.resp "text/html; charset=utf-8" (Except.ok ["body"])) =
        "Error: URL does not point to a PDF file (Content-Type: " ++
          pyLower "text/html; charset=utf-8" ++ ")" :=
  ⟨by decide, get_pdf_text_header_reject "https://ex.com/paper.pdf"
    "text/html; charset=utf-8" (Except.ok ["body"]) (by decide)⟩

/-- Both non-empty (non-whitespace) content and a truthy error in one
node update. -/
def bothContentAndError (u : Update) : Bool :=
  hasContent (u.content.getD "") && truthyOpt (u.error.getD none)

/-- C3 (counterexample): the web extractor can return a state with both
non-empty content and a set error — when the Tavily response carries a
result with raw content *and* a `failed_results` entry, the content is
kept and the failure message is stored as the error. -/
theorem web_extractor_both_content_and_error :
    bothContentAndError (get_web_content "https://ex.com"
        (Except.ok { results := [{ url := some "https://ex.com",
                                   raw_content := some "some text", content := none }],
                     failed_results := ["https://ex.com"] })) = true := by decide

theorem ne_empty_of_head (s : String) (c : Char) (l : List Char)
    (h : s.toList = c :: l) : s ≠ "" := by
  intro he
  rw [he] at h
  exact absurd h (by simp)

theorem toList_append_head (s r : String) (c : Char) (l : List Char)
    (h : s.toList = c :: l) : ∃ l2, (s ++ r).toList = c :: l2 :=
  ⟨l ++ r.toList, by rw [toList_append, h]; rfl⟩

/-- The `content_source` accumulation of `get_web_content` (agent.py
146-159), named so the both-content-and-error condition can be stated:
each result whose `raw_content` (fallback `content`) is truthy appends a
`URL:`/`Raw Content:` block. -/
def tavilyContentSource (res : TavilyRes) : String :=
  res.results.foldl
    (fun acc r =>
      let raw := if truthyOpt r.raw_content then r.raw_content.getD "" else r.content.getD ""
      if truthyStr raw then
        acc ++ "URL: " ++ r.url.getD "N/A" ++ "\n" ++ "Raw Content: " ++ raw ++ "\n\n"
      else acc) ""

theorem append_ne_empty_of_right (s t : String) (h : t ≠ "") : s ++ t ≠ "" := by
  intro he
  have h2 : (s ++ t).toList = [] := by rw [he]; rfl
  rw [toList_append] at h2
  rcases List.append_eq_nil.mp h2 with ⟨-, h3⟩
  exact h (string_ext t "" h3)

theorem pyStrip_head_of (s : String) (c : Char) (l : List Char)
    (h : s.toList = c :: l) (hc : isPySpace c = false) :
    ∃ l2, (pyStrip s).toList = c :: l2 := by
  obtain ⟨ds, hds⟩ := stripList_cons_head c l hc
  refine ⟨ds, ?_⟩
  show (String.mk (stripList s.toList)).toList = c :: ds
  rw [toList_mk, h, hds]

/-- The accumulated content source is empty or starts with the `U` of its
first `URL:` block. -/
theorem tavilyContentSource_head (res : TavilyRes) :
    tavilyContentSource res = "" ∨ ∃ l, (tavilyContentSource res).toList = 'U' :: l := by
  have haux : ∀ (rs : List TavilyItem) (acc : String),
      (acc = "" ∨ ∃ l, acc.toList = 'U' :: l) →
      ((rs.foldl
        (fun acc r =>
          let raw := if truthyOpt r.raw_content then r.raw_content.getD "" else r.content.getD ""
          if truthyStr raw then
            acc ++ "URL: " ++ r.url.getD "N/A" ++ "\n" ++ "Raw Content: " ++ raw ++ "\n\n"
          else acc) acc) = "" ∨
        ∃ l, ((rs.foldl
          (fun acc r =>
            let raw := if truthyOpt r.raw_content then r.raw_content.getD "" else r.content.getD ""
            if truthyStr raw then
              acc ++ "URL: " ++ r.url.getD "N/A" ++ "\n" ++ "Raw Content: " ++ raw ++ "\n\n"
            else acc) acc)).toList = 'U' :: l) := by
    intro rs
    induction rs with
    | nil => intro acc h; simpa using h
    | cons r rest ih =>
      intro acc hacc
      rw [List.foldl_cons]
      apply ih
      dsimp only
      by_cases hr : truthyStr (if truthyOpt r.raw_content = true then
          r.raw_content.getD "" else r.content.getD "") = true
      · rw [if_pos hr]
        right
        rcases hacc with rfl | ⟨l, hl⟩
        · have h0 : (("" : String) ++ "URL: ").toList = 'U' :: "RL: ".toList := rfl
          obtain ⟨l2, h2⟩ := toList_append_head _ (r.url.getD "N/A") _ _ h0
          obtain ⟨l3, h3⟩ := toList_append_head _ "\n" _ _ h2
          obtain ⟨l4, h4⟩ := toList_append_head _ "Raw Content: " _ _ h3
          obtain ⟨l5, h5⟩ := toList_append_head _ (if truthyOpt r.raw_content = true then
            r.raw_content.getD "" else r.content.getD "") _ _ h4
          obtain ⟨l6, h6⟩ := toList_append_head _ "\n\n" _ _ h5
          exact ⟨l6, h6⟩
        · obtain ⟨l2, h2⟩ := toList_append_head _ "URL: " _ _ hl
          obtain ⟨l3, h3⟩ := toList_append_head _ (r.url.getD "N/A") _ _ h2
          obtain ⟨l4, h4⟩ := toList_append_head _ "\n" _ _ h3
          obtain ⟨l5, h5⟩ := toList_append_head _ "Raw Content: " _ _ h4
          obtain ⟨l6, h6⟩ := toList_append_head _ (if truthyOpt r.raw_content = true then
            r.raw_content.getD "" else r.content.getD "") _ _ h5
          obtain ⟨l7, h7⟩ := toList_append_head _ "\n\n" _ _ h6
          exact ⟨l7, h7⟩
      · rw [if_neg hr]
        exact hacc
  exact haux res.results "" (Or.inl rfl)

/-- The accumulated content source is empty exactly when no result
contributed truthy content. -/
theorem tavilyContentSource_eq_empty_iff (res : TavilyRes) :
    tavilyContentSource res = "" ↔
      ∀ r ∈ res.results, truthyStr (if truthyOpt r.raw_content = true then
        r.raw_content.getD "" else r.content.getD "") = false := by
  have haux : ∀ (rs : List TavilyItem) (acc : String),
      ((rs.foldl
        (fun acc r =>
          let raw := if truthyOpt r.raw_content then r.raw_content.getD "" else r.content.getD ""
          if truthyStr raw then
            acc ++ "URL: " ++ r.url.getD "N/A" ++ "\n" ++ "Raw Content: " ++ raw ++ "\n\n"
          else acc) acc) = "") ↔
        (acc = "" ∧ ∀ r ∈ rs, truthyStr (if truthyOpt r.raw_content = true then
          r.raw_content.getD "" else r.content.getD "") = false) := by
    intro rs
    induction rs with
    | nil => intro acc; simp
    | cons r rest ih =>
      intro acc
      rw [List.foldl_cons]
      dsimp only
      by_cases hr : truthyStr (if truthyOpt r.raw_content = true then
          r.raw_content.getD "" else r.content.getD "") = true
      · rw [if_pos hr, ih]
        constructor
        · rintro ⟨h1, -⟩
          exact absurd h1 (append_ne_empty_of_right _ "\n\n" (by decide))
        · rintro ⟨-, hall⟩
          have hcontra := hall r (List.mem_cons_self r rest)
          rw [hr] at hcontra
          exact absurd hcontra (by decide)
      · rw [if_neg hr, ih]
        have hrf : truthyStr (if truthyOpt r.raw_content = true then
            r.raw_content.getD "" else r.content.getD "") = false := by simpa using hr
        constructor
        · rintro ⟨h1, h2⟩
          refine ⟨h1, ?_⟩
          intro r2 hm
          rcases List.mem_cons.mp hm with rfl | hm2
          · exact hrf
          · exact h2 r2 hm2
        · rintro ⟨h1, h2⟩
          exact ⟨h1, fun r2 hm => h2 r2 (List.mem_cons_of_mem r hm)⟩
  have := haux res.results ""
  simpa [tavilyContentSource] using this

/-- C3 (amended): no extractor node other than the web extractor ever
returns a state with both non-empty content and a set error; the web
extractor returns both exactly when the Tavily call returns (without
raising) a response with a non-empty `failed_results` list and at least
one result contributing truthy content — then the failure message is
stored while the content is kept. -/
theorem extractor_updates_not_both :
    (∀ t : Except String String, bothContentAndError (get_twitter_content t) = false) ∧
      (∀ t : Except String LinkedInRes, bothContentAndError (get_linkedin_content t) = false) ∧
      (∀ t : Except String YoutubeRes, bothContentAndError (get_youtube_content t) = false) ∧
      (∀ t : Except String String, bothContentAndError (handle_pdf_content t) = false) ∧
      (∀ url e : String, bothContentAndError (get_web_content url (Except.error e)) = false) ∧
      (∀ (url : String) (res : TavilyRes),
        bothContentAndError (get_web_content url (Except.ok res)) = true ↔
          (res.failed_results ≠ [] ∧
            ∃ r ∈ res.results, truthyStr (if truthyOpt r.raw_content = true then
              r.raw_content.getD "" else r.content.getD "") = true)) := by
  refine ⟨?_, ?_, ?_, ?_, ?_, ?_⟩
  · intro t
    cases t with
    | error e => simp [get_twitter_content, bothContentAndError, hasContent, truthyStr]
    | ok r =>
      simp only [get_twitter_content, bothContentAndError]
      split_ifs <;> simp [hasContent, truthyOpt, truthyStr]
  · intro t
    cases t with
    | error e => simp [get_linkedin_content, bothContentAndError, hasContent, truthyStr]
    | ok r =>
      cases r with
      | strRes s =>
        simp only [get_linkedin_content, bothContentAndError]
        split_ifs <;> simp [hasContent, truthyOpt, truthyStr]
      | dictRes c src =>
        simp only [get_linkedin_content, bothContentAndError]
        split_ifs <;> simp [hasContent, truthyOpt, truthyStr]
  · intro t
    cases t with
    | error e => simp [get_youtube_content, bothContentAndError, hasContent, truthyStr]
    | ok r =>
      cases r with
      | strRes s =>
        simp [get_youtube_content, bothContentAndError, hasContent, truthyOpt, truthyStr]
      | dictRes e d =>
        simp only [get_youtube_content, bothContentAndError]
        split_ifs <;> simp [hasContent, truthyOpt, truthyStr]
  · intro t
    cases t with
    | error e => simp [handle_pdf_content, bothContentAndError, hasContent, truthyStr]
    | ok r =>
      simp only [handle_pdf_content, bothContentAndError]
      split_ifs <;> simp [hasContent, truthyOpt, truthyStr]
  · intro url e
    simp [get_web_content, bothContentAndError, hasContent, truthyStr]
  · intro url res
    have hgw : get_web_content url (Except.ok res) =
        { content_type := some ContentType.Webpage
          content := some (pyStrip (tavilyContentSource res))
          error := some (if ¬ truthyStr (tavilyContentSource res) = true ∧
              ¬ truthyOpt (if res.failed_results.isEmpty then none
                else some ("Tavily failed to extract content from: " ++
                  String.intercalate ", " res.failed_results)) = true then
              some "Tavily extract did not return any content for the URL."
            else if res.failed_results.isEmpty then none
              else some ("Tavily failed to extract content from: " ++
                String.intercalate ", " res.failed_results))
          needs_web_fallback := some false } := rfl
    rw [hgw]
    unfold bothContentAndError
    simp only [Option.getD_some]
    constructor
    · intro hb
      rw [Bool.and_eq_true] at hb
      obtain ⟨h1, h2⟩ := hb
      have hcs_ne : tavilyContentSource res ≠ "" := by
        intro h0
        rw [h0] at h1
        exact absurd h1 (by decide)
      have hcst : truthyStr (tavilyContentSource res) = true := by
        simp [truthyStr, hcs_ne]
      refine ⟨?_, ?_⟩
      · intro hfnil
        rw [hfnil] at h2
        simp [hcst, truthyOpt] at h2
      · by_contra hno
        push_neg at hno
        apply hcs_ne
        rw [tavilyContentSource_eq_empty_iff]
        intro r hr
        simpa using hno r hr
    · rintro ⟨hf, r0, hr0mem, hr0⟩
      have hfE : res.failed_results.isEmpty = false := by
        cases hfr : res.failed_results with
        | nil => exact absurd hfr hf
        | cons a b => rfl
      have hcs_ne : tavilyContentSource res ≠ "" := by
        intro h0
        have hc := (tavilyContentSource_eq_empty_iff res).mp h0 r0 hr0mem
        rw [hr0] at hc
        exact absurd hc (by decide)
      rcases tavilyContentSource_head res with h0 | ⟨lh, hlh⟩
      · exact absurd h0 hcs_ne
      obtain ⟨l2, hl2⟩ := pyStrip_head_of _ _ _ hlh (by decide)
      obtain ⟨l3, hl3⟩ := pyStrip_head_of _ _ _ hl2 (by decide)
      have hHas : hasContent (pyStrip (tavilyContentSource res)) = true := by
        unfold hasContent
        simp [truthyStr, ne_empty_of_head _ _ _ hl2, ne_empty_of_head _ _ _ hl3]
      obtain ⟨lm, hlm⟩ := toList_append_head "Tavily failed to extract content from: "
        (String.intercalate ", " res.failed_results) 'T'
        "avily failed to extract content from: ".toList rfl
      have hMne : ("Tavily failed to extract content from: " ++
          String.intercalate ", " res.failed_results) ≠ "" := ne_empty_of_head _ _ _ hlm
      have hcst : truthyStr (tavilyContentSource res) = true := by
        simp [truthyStr, hcs_ne]
      rw [Bool.and_eq_true]
      refine ⟨hHas, ?_⟩
      simp [hfE, hcst, truthyOpt, truthyStr, hMne]

theorem find?_congr_mem {α : Type} (l : List α) (p q : α → Bool)
    (h : ∀ x ∈ l, p x = q x) : l.find? p = l.find? q := by
  induction l with
  | nil => rfl
  | cons a t ih =>
    have ha := h a (List.mem_cons_self a t)
    by_cases hp : p a = true
    · rw [List.find?_cons_of_pos t hp, List.find?_cons_of_pos t (ha ▸ hp)]
    · rw [List.find?_cons_of_neg t hp, List.find?_cons_of_neg t (ha ▸ hp)]
      exact ih (fun x hx => h x (List.mem_cons_of_mem a hx))

/-- The first maximal-length element of `b :: xs` (what `find?` with the
"no element is longer" test selects) is the Python `max` fold. -/
theorem find?_longest_eq_fold (xs : List String) (b : String) :
    (b :: xs).find? (fun d => (b :: xs).all (fun e => decide (e.length ≤ d.length))) =
      some (xs.foldl (fun best d => if d.length > best.length then d else best) b) := by
  induction xs generalizing b with
  | nil => simp
  | cons y ys ih =>
    by_cases hy : b.length < y.length
    · -- the new head is strictly longer: `b` is discarded
      have hPb : ((b :: y :: ys).all (fun e => decide (e.length ≤ b.length))) = false :=
        List.all_eq_false.mpr ⟨y, by simp, by simp [Nat.not_le.mpr hy]⟩
      rw [List.find?_cons_of_neg _ (by simp [hPb])]
      have hcongr : ∀ d ∈ y :: ys,
          ((b :: y :: ys).all (fun e => decide (e.length ≤ d.length))) =
            ((y :: ys).all (fun e => decide (e.length ≤ d.length))) := by
        intro d _
        by_cases hP : ((y :: ys).all (fun e => decide (e.length ≤ d.length))) = true
        · have hyd : y.length ≤ d.length := by
            simpa using List.all_eq_true.mp hP y (by simp)
          have hbd : b.length ≤ d.length := le_trans (le_of_lt hy) hyd
          rw [List.all_cons, hP]
          simp [hbd]
        · have hP' : ((y :: ys).all (fun e => decide (e.length ≤ d.length))) = false := by
            simpa using hP
          rw [List.all_cons, hP', Bool.and_false]
      rw [find?_congr_mem _ _ _ hcongr, ih y, List.foldl_cons]
      have hstep : (if y.length > b.length then y else b) = y := if_pos hy
      rw [hstep]
    · -- the new head is not longer: `y` never wins
      have hyb : y.length ≤ b.length := Nat.le_of_not_lt hy
      have hstep : (if y.length > b.length then y else b) = b := if_neg hy
      rw [List.foldl_cons, hstep]
      by_cases hb : ((b :: y :: ys).all (fun e => decide (e.length ≤ b.length))) = true
      · rw [List.find?_cons_of_pos _ (by exact hb)]
        have hb' : ((b :: ys).all (fun e => decide (e.length ≤ b.length))) = true := by
          rw [List.all_eq_true] at hb ⊢
          intro e he
          rcases List.mem_cons.mp he with rfl | he2
          · exact hb e (by simp)
          · exact hb e (by simp [he2])
        have hih := ih b
        rw [List.find?_cons_of_pos _ (by exact hb')] at hih
        exact hih
      · have hbf : ((b :: y :: ys).all (fun e => decide (e.length ≤ b.length))) = false := by
          simpa using hb
        obtain ⟨e, he, hne⟩ := List.all_eq_false.mp hbf
        have hebig : ¬ e.length ≤ b.length := by simpa using hne
        have heys : e ∈ ys := by
          rcases List.mem_cons.mp he with rfl | he2
          · exact absurd (le_refl _) hebig
          · rcases List.mem_cons.mp he2 with rfl | he3
            · exact absurd hyb hebig
            · exact he3
        have hPy : ((b :: y :: ys).all (fun e => decide (e.length ≤ y.length))) = false :=
          List.all_eq_false.mpr ⟨e, he, by
            simp only [decide_eq_true_eq]
            exact fun hc => hebig (le_trans hc hyb)⟩
        have hb2 : ((b :: ys).all (fun e => decide (e.length ≤ b.length))) = false :=
          List.all_eq_false.mpr ⟨e, List.mem_cons_of_mem _ heys, hne⟩
        rw [List.find?_cons_of_neg _ (by simp [hbf]), List.find?_cons_of_neg _ (by simp [hPy])]
        have hih := ih b
        rw [List.find?_cons_of_neg _ (by simp [hb2])] at hih
        rw [← hih]
        apply find?_congr_mem
        intro d hd
        by_cases hPd : ((b :: ys).all (fun e => decide (e.length ≤ d.length))) = true
        · have hbd : b.length ≤ d.length := by
            simpa using List.all_eq_true.mp hPd b (by simp)
          have hyd : y.length ≤ d.length := le_trans hyb hbd
          have hys : (ys.all (fun e => decide (e.length ≤ d.length))) = true := by
            rw [List.all_eq_true] at hPd ⊢
            exact fun e he => hPd e (List.mem_cons_of_mem _ he)
          simp only [List.all_cons, hys, hbd, hyd]
          simp
        · have hPd' : ((b :: ys).all (fun e => decide (e.length ≤ d.length))) = false := by
            simpa using hPd
          simp only [List.all_cons] at hPd' ⊢
          rw [hPd']
          rcases Bool.and_eq_false_iff.mp hPd' with h1 | h1 <;> simp [h1]

/-- C5: the YouTube description merge equals the spec's rule — among the
successfully-returned (truthy) candidates, in attempt order BeautifulSoup,
yt-dlp, Data API, the first one of maximal character length is chosen. -/
theorem mergedDescription_eq_spec (bs dlp api : Option String) :
    mergedDescription bs dlp api = specSelectLongest (descriptionCandidates bs dlp api) ∧
      mergedDescription (some "short") (some "a much longer description text") none =
        some "a much longer description text" := by
  constructor
  · unfold mergedDescription specSelectLongest
    cases hc : descriptionCandidates bs dlp api with
    | nil => rfl
    | cons x xs => exact (find?_longest_eq_fold xs x).symm
  · decide

theorem pyStartsWith_append_any (s t : String) (h : pyStartsWith s "Error:" = true) :
    pyStartsWith (s ++ t) "Error:" = true := by
  have h' : ("Error:" : String).toList.isPrefixOf s.toList = true := h
  have hle : ("Error:" : String).toList.length ≤ s.toList.length :=
    (List.isPrefixOf_iff_prefix.mp h').length_le
  rw [pyStartsWith_append_left _ _ _ hle]
  exact h

/-- The root-only formatted tweet thread starts with the character `T`. -/
theorem formatted_root_head (mt : TweetData) :
    ∃ l, (String.intercalate "\n" (formatTweets [mt])).toList = 'T' :: l := by
  have h0 : String.intercalate "\n" (formatTweets [mt]) =
      "Tweet " ++ toString (0 + 1) ++ "/" ++ toString 1 ++ " by @" ++
        mt.author.getD "unknown_user" ++ " (" ++ mt.createdAt.getD "Unknown time" ++ "):\n" ++
        pyStrip mt.text ++ "\n---" := rfl
  rw [h0]
  have h1 : ("Tweet " : String).toList = 'T' :: "weet ".toList := rfl
  obtain ⟨l2, h2⟩ := toList_append_head _ (toString (0 + 1)) _ _ h1
  obtain ⟨l3, h3⟩ := toList_append_head _ "/" _ _ h2
  obtain ⟨l4, h4⟩ := toList_append_head _ (toString 1) _ _ h3
  obtain ⟨l5, h5⟩ := toList_append_head _ " by @" _ _ h4
  obtain ⟨l6, h6⟩ := toList_append_head _ (mt.author.getD "unknown_user") _ _ h5
  obtain ⟨l7, h7⟩ := toList_append_head _ " (" _ _ h6
  obtain ⟨l8, h8⟩ := toList_append_head _ (mt.createdAt.getD "Unknown time") _ _ h7
  obtain ⟨l9, h9⟩ := toList_append_head _ "):\n" _ _ h8
  obtain ⟨l10, h10⟩ := toList_append_head _ (pyStrip mt.text) _ _ h9
  obtain ⟨l11, h11⟩ := toList_append_head _ "\n---" _ _ h10
  exact ⟨l11, h11⟩

theorem pyStrip_head_T (s : String) (l : List Char) (h : s.toList = 'T' :: l) :
    ∃ l2, (pyStrip s).toList = 'T' :: l2 := by
  obtain ⟨ds, hds⟩ := stripList_cons_head 'T' l (by decide)
  exact ⟨ds, by rw [pyStrip, h, toList_mk, hds]⟩

theorem startsWith_error_false_of_head_T (s : String) (l : List Char)
    (h : s.toList = 'T' :: l) : pyStartsWith s "Error:" = false := by
  unfold pyStartsWith
  rw [h, show ("Error:" : String).toList = 'E' :: "rror:".toList from rfl]
  exact isPrefixOf_cons_ne 'E' 'T' _ _ (by decide)

/-- Behaviour of `fetch_tweet_thread` when the root fetch succeeds but the
conversation fetch fails (exception or unsuccessful API status): the
result is the root tweet alone, formatted. -/
theorem fetch_tweet_thread_conv_degrades (url k tid cid : String) (o : TwitterOracle)
    (mt : TweetData) (rest : List TweetData) (m : Option String)
    (h1 : o.apiKey = some k)
    (h2 : findStatusId url.toList = some tid)
    (h3 : o.mainResp = Except.ok ⟨"success", m, mt :: rest⟩)
    (h4 : mt.conversationId = some cid)
    (h5 : cid ≠ "") (h6 : cid ≠ tid)
    (h7 : (∃ ce, o.convResp = Except.error ce) ∨
      ∃ cd, o.convResp = Except.ok cd ∧ cd.status ≠ "success") :
    fetch_tweet_thread url o = pyStrip (String.intercalate "\n" (formatTweets [mt])) := by
  have hsort : sortByKey [mt] = [mt] := rfl
  have hempty : (formatTweets [mt]).isEmpty = false := rfl
  have h2d : findStatusId url.data = some tid := h2
  rcases h7 with ⟨ce, hc⟩ | ⟨cd, hc, hstat⟩
  · simp [fetch_tweet_thread, h1, h2, h2d, h3, h4, h5, h6, hc, hsort, hempty]
  · simp [fetch_tweet_thread, h1, h2, h2d, h3, h4, h5, h6, hc, hstat, hsort, hempty]

/-- C9: for a Twitter/X status URL with a fetchable root tweet, a failing
conversation fetch still yields the formatted root tweet alone (not an
error), and the run then routes to summarization; a failing root fetch
makes the whole operation return an `"Error:"`-prefixed string. -/
theorem twitter_conv_failure_recoverable (url k tid cid e2 : String)
    (o o2 : TwitterOracle) (mt : TweetData) (rest : List TweetData) (m : Option String)
    (h1 : o.apiKey = some k)
    (h2 : findStatusId url.toList = some tid)
    (h3 : o.mainResp = Except.ok ⟨"success", m, mt :: rest⟩)
    (h4 : mt.conversationId = some cid)
    (h5 : cid ≠ "") (h6 : cid ≠ tid)
    (h7 : (∃ ce, o.convResp = Except.error ce) ∨
      ∃ cd, o.convResp = Except.ok cd ∧ cd.status ≠ "success")
    (h8 : o2.apiKey = some k)
    (h9 : o2.mainResp = Except.error e2) :
    fetch_tweet_thread url o = pyStrip (String.intercalate "\n" (formatTweets [mt])) ∧
      pyStartsWith (fetch_tweet_thread url o) "Error:" = false ∧
      (∀ s : AgentState,
        postExtractionStep
            (applyUpdate s (get_twitter_content (Except.ok (fetch_tweet_thread url o)))) =
          PostExtraction.toSummarize
            (applyUpdate s (get_twitter_content (Except.ok (fetch_tweet_thread url o))))) ∧
      pyStartsWith (fetch_tweet_thread url o2) "Error:" = true := by
  have hmain := fetch_tweet_thread_conv_degrades url k tid cid o mt rest m h1 h2 h3 h4 h5 h6 h7
  obtain ⟨l0, hl0⟩ := formatted_root_head mt
  obtain ⟨l1, hl1⟩ := pyStrip_head_T _ _ hl0
  have hrl : (fetch_tweet_thread url o).toList = 'T' :: l1 := by rw [hmain]; exact hl1
  have hne : pyStartsWith (fetch_tweet_thread url o) "Error:" = false :=
    startsWith_error_false_of_head_T _ _ hrl
  have hr_ne : fetch_tweet_thread url o ≠ "" := ne_empty_of_head _ _ _ hrl
  obtain ⟨l2, hl2⟩ := pyStrip_head_T _ _ hrl
  have hstrip_ne : pyStrip (fetch_tweet_thread url o) ≠ "" := ne_empty_of_head _ _ _ hl2
  obtain ⟨l3, hl3⟩ := pyStrip_head_T _ _ hl2
  have hstrip2_ne : pyStrip (pyStrip (fetch_tweet_thread url o)) ≠ "" := ne_empty_of_head _ _ _ hl3
  refine ⟨hmain, hne, ?_, ?_⟩
  · intro s
    have hupd : get_twitter_content (Except.ok (fetch_tweet_thread url o)) =
        { content_type := some ContentType.Webpage
          content := some (pyStrip (fetch_tweet_thread url o))
          error := some none, needs_web_fallback := some false } := by
      simp [get_twitter_content, hne, truthyStr, hr_ne]
    rw [hupd]
    unfold postExtractionStep should_summarize
    simp [applyUpdate, truthyOpt, hasContent, truthyStr, hstrip_ne, hstrip2_ne]
  · have hp1 : pyStartsWith
        ("Error: Network or API error fetching main tweet " ++ tid) "Error:" = true :=
      startsWith_error_of_start _ _ (by decide) (by decide)
    have hp2 := pyStartsWith_append_any _ ": " hp1
    have hp3 := pyStartsWith_append_any _ e2 hp2
    have hfix : fetch_tweet_thread url o2 =
        "Error: Network or API error fetching main tweet " ++ tid ++ ": " ++ e2 := by
      have h2d : findStatusId url.data = some tid := h2
      simp [fetch_tweet_thread, h8, h9, h2, h2d]
    rw [hfix]
    exact hp3

/-- Concrete root tweet for the C9 witness. -/
def twRoot : TweetData :=
  { id := "123", conversationId := some "999"
    createdAt := some "Thu May 01 12:03:30 +0000 2025", createdAtKey := 5
    author := some "alice", text := " hi there " }

/-- Concrete oracle: root fetch succeeds, conversation fetch raises. -/
def twOracle : TwitterOracle :=
  { apiKey := some "k"
    mainResp := Except.ok { status := "success", msg := none, tweets := [twRoot] }
    convResp := Except.error "boom" }

/-- Concrete oracle: root fetch raises. -/
def twOracleFail : TwitterOracle :=
  { apiKey := some "k"
    mainResp := Except.error "netdown"
    convResp := Except.error "boom" }

theorem twitter_conv_failure_recoverable_witness :
    (twOracle.apiKey = some "k" ∧
      findStatusId "https://x.com/a/status/123".toList = some "123" ∧
      twOracle.mainResp = Except.ok ⟨"success", none, [twRoot]⟩ ∧
      twRoot.conversationId = some "999" ∧
      twOracleFail.apiKey = some "k" ∧
      twOracleFail.mainResp = Except.error "netdown") ∧
      (fetch_tweet_thread "https://x.com/a/status/123" twOracle =
          pyStrip (String.intercalate "\n" (formatTweets [twRoot])) ∧
        pyStartsWith (fetch_tweet_thread "https://x.com/a/status/123" twOracle) "Error:" = false ∧
        (∀ s : AgentState,
          postExtractionStep
              (applyUpdate s (get_twitter_content
                (Except.ok (fetch_tweet_thread "https://x.com/a/status/123" twOracle)))) =
            PostExtraction.toSummarize
              (applyUpdate s (get_twitter_content
                (Except.ok (fetch_tweet_thread "https://x.com/a/status/123" twOracle))))) ∧
        pyStartsWith (fetch_tweet_thread "https://x.com/a/status/123" twOracleFail)
          "Error:" = true) :=
  ⟨⟨rfl, by decide, rfl, rfl, rfl, rfl⟩,
    twitter_conv_failure_recoverable "https://x.com/a/status/123" "k" "123" "999" "netdown"
      twOracle twOracleFail twRoot [] none rfl (by decide) rfl rfl (by decide) (by decide)
      (Or.inl ⟨"boom", rfl⟩) rfl rfl⟩

theorem runPostExtraction_fallback_visited (o : Oracles) (name : String)
    (s3 : AgentState) (uE : Update) (h : s3.needs_web_fallback = true) :
    (runPostExtraction o name s3 uE).2.2.take 4 =
      ["init", "llm_router", name, "web_extractor"] := by
  have hss : should_summarize s3 = SumRoute.web_extractor := by
    unfold should_summarize
    rw [h]
    simp
  unfold runPostExtraction
  rw [hss]
  dsimp only
  split <;> rfl

/-- C4: on the YouTube extractor's aggregate failure
(`youtube_fallback_failed`) the node raises the fallback flag and clears
the blocking error; the fallback flag takes priority over every other
routing condition in `should_summarize`; and a run routed to the YouTube
extractor whose fetch aggregately fails visits the web extractor next. -/
theorem youtube_fallback_routes_to_web (d : Option String) (s : AgentState) (o : Oracles)
    (msg u : String)
    (h1 : s.needs_web_fallback = true)
    (h2 : o.route = Except.ok ExtractorTool.YoutubeExtractor)
    (h3 : o.youtube = Except.ok (YoutubeRes.dictRes "youtube_fallback_failed" d))
    (h4 : (pySplitWS msg).find? (fun w => pyStartsWith w "http") = some u) :
    get_youtube_content (Except.ok (YoutubeRes.dictRes "youtube_fallback_failed" d)) =
        { content_type := some ContentType.Webpage, content := some ""
          error := some none, needs_web_fallback := some true } ∧
      postExtractionStep s = PostExtraction.toWeb s ∧
      (run_agent o msg).visited.take 4 =
        ["init", "llm_router", "youtube_extractor", "web_extractor"] := by
  refine ⟨rfl, ?_, ?_⟩
  · unfold postExtractionStep should_summarize
    rw [h1]
    simp
  · have hinit : init_state msg =
        { original_message := some msg, url := some u
          content_type := some ContentType.Webpage, content := some ""
          summary := some "", error := some none, route_decision := some none
          needs_web_fallback := some false } := by
      simp [init_state, h4]
    have hs1err : (applyUpdate (seedState msg) (init_state msg)).error = none := by
      rw [hinit]
      rfl
    have hu2 : llm_router (applyUpdate (seedState msg) (init_state msg)).error o.route =
        { route_decision := some (some "youtube_extractor"), error := some none } := by
      rw [hs1err, h2]
      rfl
    have hroute : route_based_on_llm
        (applyUpdate (applyUpdate (seedState msg) (init_state msg))
          (llm_router (applyUpdate (seedState msg) (init_state msg)).error o.route)) =
        RouteTarget.youtube := by
      rw [hu2]
      unfold route_based_on_llm
      simp [applyUpdate, hs1err, truthyOpt]
    have hs3fb : ∀ s2 : AgentState,
        (applyUpdate s2 (get_youtube_content o.youtube)).needs_web_fallback = true := by
      intro s2
      rw [h3]
      rfl
    unfold run_agent
    dsimp only
    unfold runGraph
    dsimp only
    rw [hroute]
    dsimp only [pickExtractor]
    exact runPostExtraction_fallback_visited o "youtube_extractor" _ _ (hs3fb _)

/-- Concrete oracle for the C4 witness: router chooses YouTube, the
YouTube fetch aggregately fails, the fallback web extraction succeeds. -/
def ytFallbackOracle : Oracles :=
  { route := Except.ok ExtractorTool.YoutubeExtractor
    tavily := Except.ok { results := [{ url := some "https://youtube.com/watch?v=1",
                                        raw_content := some "page text", content := none }],
                          failed_results := [] }
    pdf := Except.ok "", twitter := Except.ok "", linkedin := Except.ok (LinkedInRes.strRes "")
    youtube := Except.ok (YoutubeRes.dictRes "youtube_fallback_failed" (some "all failed"))
    summarizer := Except.ok ⟨"T", ["a"], "s"⟩ }

/-- A state with the fallback flag raised, for the C4 witness. -/
def ytFallbackState : AgentState :=
  { original_message := "v https://youtube.com/watch?v=1", url := "https://youtube.com/watch?v=1"
    content_type := ContentType.Webpage, content := "", summary := ""
    error := none, route_decision := some "youtube_extractor", needs_web_fallback := true }

theorem youtube_fallback_routes_to_web_witness :
    (ytFallbackState.needs_web_fallback = true ∧
      ytFallbackOracle.route = Except.ok ExtractorTool.YoutubeExtractor ∧
      ytFallbackOracle.youtube =
        Except.ok (YoutubeRes.dictRes "youtube_fallback_failed" (some "all failed")) ∧
      (pySplitWS "v https://youtube.com/watch?v=1").find? (fun w => pyStartsWith w "http") =
        some "https://youtube.com/watch?v=1") ∧
      (get_youtube_content
          (Except.ok (YoutubeRes.dictRes "youtube_fallback_failed" (some "all failed"))) =
          { content_type := some ContentType.Webpage, content := some ""
            error := some none, needs_web_fallback := some true } ∧
        postExtractionStep ytFallbackState = PostExtraction.toWeb ytFallbackState ∧
        (run_agent ytFallbackOracle "v https://youtube.com/watch?v=1").visited.take 4 =
          ["init", "llm_router", "youtube_extractor", "web_extractor"]) :=
  ⟨⟨rfl, rfl, rfl, by decide⟩,
    youtube_fallback_routes_to_web (some "all failed") ytFallbackState ytFallbackOracle
      "v https://youtube.com/watch?v=1" "https://youtube.com/watch?v=1"
      rfl rfl rfl (by decide)⟩

/-- Oracle for a run whose primary web extraction fails outright
(Tavily returns no results and one failed URL). -/
def webFailOracle : Oracles :=
  { route := Except.ok ExtractorTool.WebpageExtractor
    tavily := Except.ok { results := [], failed_results := ["https://ex.com/a"] }
    pdf := Except.ok "", twitter := Except.ok "", linkedin := Except.ok (LinkedInRes.strRes "")
    youtube := Except.ok (YoutubeRes.strRes "")
    summarizer := Except.ok ⟨"T", ["a"], "s"⟩ }

/-- C2 (counterexample): when the primary webpage extractor fails, the
run does *not* terminate in `Done` carrying `(screenshot_bytes, None)`
with no error — the compiled graph has no browser-automation fallback
node at all, the run ends at the web extractor, and an `"Error:"`-prefixed
message is returned. -/
theorem no_screenshot_fallback_on_web_failure :
    pyStartsWith (run_agent webFailOracle "see https://ex.com/a").result "Error:" = true ∧
      (run_agent webFailOracle "see https://ex.com/a").result =
        "Error: Tavily failed to extract content from: https://ex.com/a" ∧
      (run_agent webFailOracle "see https://ex.com/a").finalState.summary = "" ∧
      (run_agent webFailOracle "see https://ex.com/a").visited =
        ["init", "llm_router", "web_extractor"] ∧
      "fallback_scrape" ∉ graphNodes := by decide

/-- C2 (amended): the compiled graph contains no browser-automation
fallback node and the state carries no screenshot; for every run in which
the router picks the webpage extractor and the Tavily extraction fails
with no results, the pipeline terminates after the web extractor with the
failure surfaced as an `"Error:"`-prefixed result and an empty summary —
`get_page_screenshot_selenium` is never reachable from the graph. -/
theorem web_failure_terminates_with_error (o : Oracles) (msg u f : String) (fs : List String)
    (h2 : o.route = Except.ok ExtractorTool.WebpageExtractor)
    (h3 : o.tavily = Except.ok { results := [], failed_results := f :: fs })
    (h4 : (pySplitWS msg).find? (fun w => pyStartsWith w "http") = some u) :
    (run_agent o msg).result =
        "Error: " ++ ("Tavily failed to extract content from: " ++
          String.intercalate ", " (f :: fs)) ∧
      (run_agent o msg).visited = ["init", "llm_router", "web_extractor"] ∧
      (run_agent o msg).finalState.summary = "" ∧
      "fallback_scrape" ∉ graphNodes := by
  have hinit : init_state msg =
      { original_message := some msg, url := some u
        content_type := some ContentType.Webpage, content := some ""
        summary := some "", error := some none, route_decision := some none
        needs_web_fallback := some false } := by
    simp [init_state, h4]
  have hs1err : (applyUpdate (seedState msg) (init_state msg)).error = none := by
    rw [hinit]
    rfl
  have hu2 : llm_router (applyUpdate (seedState msg) (init_state msg)).error o.route =
      { route_decision := some (some "web_extractor"), error := some none } := by
    rw [hs1err, h2]
    rfl
  have hroute : route_based_on_llm
      (applyUpdate (applyUpdate (seedState msg) (init_state msg))
        (llm_router (applyUpdate (seedState msg) (init_state msg)).error o.route)) =
      RouteTarget.web := by
    rw [hu2]
    unfold route_based_on_llm
    simp [applyUpdate, hs1err, truthyOpt]
  -- the failure message and its properties
  obtain ⟨lM, hlM⟩ := toList_append_head "Tavily failed to extract content from: "
    (String.intercalate ", " (f :: fs)) 'T' "avily failed to extract content from: ".toList rfl
  have hMne : ("Tavily failed to extract content from: " ++
      String.intercalate ", " (f :: fs)) ≠ "" := ne_empty_of_head _ _ _ hlM
  have hMlow : pyStartsWith (pyLower ("Tavily failed to extract content from: " ++
      String.intercalate ", " (f :: fs))) "error:" = false :=
    lower_not_error_append _ _ (by decide) (by decide)
  have hweb : ∀ url2 : String, get_web_content url2 o.tavily =
      { content_type := some ContentType.Webpage, content := some ""
        error := some (some ("Tavily failed to extract content from: " ++
          String.intercalate ", " (f :: fs)))
        needs_web_fallback := some false } := by
    intro url2
    rw [h3]
    simp [get_web_content, truthyStr, truthyOpt, hMne, pyStrip_empty]
  have hss : ∀ s2 : AgentState,
      should_summarize (applyUpdate s2 (get_web_content s2.url o.tavily)) = SumRoute.end_ := by
    intro s2
    rw [hweb s2.url]
    unfold should_summarize
    simp [applyUpdate, truthyOpt, truthyStr, hMne]
  have hformat : formatFinal (get_web_content
      (applyUpdate (applyUpdate (seedState msg) (init_state msg))
        (llm_router (applyUpdate (seedState msg) (init_state msg)).error o.route)).url
        o.tavily) =
      "Error: " ++ ("Tavily failed to extract content from: " ++
        String.intercalate ", " (f :: fs)) := by
    rw [hweb]
    simp [formatFinal, formatFinalTail, truthyOpt, truthyStr, hMne, hMlow]
  refine ⟨?_, ?_, ?_, by decide⟩
  · unfold run_agent
    dsimp only
    unfold runGraph
    dsimp only
    rw [hroute]
    dsimp only [pickExtractor]
    unfold runPostExtraction
    rw [hss]
    exact hformat
  · unfold run_agent
    dsimp only
    unfold runGraph
    dsimp only
    rw [hroute]
    dsimp only [pickExtractor]
    unfold runPostExtraction
    rw [hss]
  · unfold run_agent
    dsimp only
    unfold runGraph
    dsimp only
    rw [hroute]
    dsimp only [pickExtractor]
    unfold runPostExtraction
    rw [hss]
    dsimp only
    rw [hweb, hu2, hinit]
    rfl

theorem web_failure_terminates_with_error_witness :
    (webFailOracle.route = Except.ok ExtractorTool.WebpageExtractor ∧
      webFailOracle.tavily =
        Except.ok { results := [], failed_results := ["https://ex.com/a"] } ∧
      (pySplitWS "see https://ex.com/a").find? (fun w => pyStartsWith w "http") =
        some "https://ex.com/a") ∧
      ((run_agent webFailOracle "see https://ex.com/a").result =
          "Error: " ++ ("Tavily failed to extract content from: " ++
            String.intercalate ", " ["https://ex.com/a"]) ∧
        (run_agent webFailOracle "see https://ex.com/a").visited =
          ["init", "llm_router", "web_extractor"] ∧
        (run_agent webFailOracle "see https://ex.com/a").finalState.summary = "" ∧
        "fallback_scrape" ∉ graphNodes) :=
  ⟨⟨rfl, rfl, by decide⟩,
    web_failure_terminates_with_error webFailOracle "see https://ex.com/a"
      "https://ex.com/a" "https://ex.com/a" [] rfl rfl (by decide)⟩

/-- Modelled from the spec's words (the claim's antecedent, matching the
transport layer's `URL_REGEX r"(https?:\/\/[^\s]+)"`): does a scheme
followed by at least one non-whitespace character occur at this position? -/
def urlPatternHere (cs : List Char) : Bool :=
  ("http://".toList.isPrefixOf cs &&
    (match cs.drop 7 with
      | c :: _ => ¬ isPySpace c
      | [] => false)) ||
  ("https://".toList.isPrefixOf cs &&
    (match cs.drop 8 with
      | c :: _ => ¬ isPySpace c
      | [] => false))

/-- Modelled from the spec's words: the message contains a substring
matching a URL pattern (scheme + non-whitespace run). -/
def hasUrlPattern : List Char → Bool
  | [] => false
  | c :: rest => urlPatternHere (c :: rest) || hasUrlPattern rest

/-- Oracle for a message that contains a word starting with `"http"` but
no URL: the LLM router (an oracle) may still classify it as a webpage. -/
def httpWordOracle : Oracles :=
  { route := Except.ok ExtractorTool.WebpageExtractor
    tavily := Except.ok { results := [{ url := some "httpocrisy",
                                        raw_content := some "page text", content := none }],
                          failed_results := [] }
    pdf := Except.ok "", twitter := Except.ok "", linkedin := Except.ok (LinkedInRes.strRes "")
    youtube := Except.ok (YoutubeRes.strRes "")
    summarizer := Except.ok ⟨"T", ["a"], "s"⟩ }

/-- C7 (counterexample): the message `"httpocrisy rules"` contains no
substring matching a URL pattern, yet `init_state` accepts the word
`httpocrisy` (any word starting with `"http"`), so the run can reach the
web extractor and does not terminate with the no-URL error. -/
theorem no_url_pattern_but_extractor_invoked :
    hasUrlPattern "httpocrisy rules".toList = false ∧
      "web_extractor" ∈ (run_agent httpWordOracle "httpocrisy rules").visited ∧
      (run_agent httpWordOracle "httpocrisy rules").result ≠
        "Error: No URL found in the message." := by decide

/-- C7 (amended): for every message in which no whitespace-separated word
starts with `"http"`, the pipeline terminates with
`"Error: No URL found in the message."` having visited only the init and
router nodes — no extractor adapter is ever invoked. -/
theorem no_http_word_terminates_error (o : Oracles) (msg : String)
    (h : (pySplitWS msg).find? (fun w => pyStartsWith w "http") = none) :
    (run_agent o msg).result = "Error: No URL found in the message." ∧
      (run_agent o msg).visited = ["init", "llm_router"] := by
  have hinit : init_state msg =
      { original_message := some msg, url := some ""
        content_type := some ContentType.Webpage, content := some ""
        summary := some "", error := some (some "No URL found in the message.")
        route_decision := some none, needs_web_fallback := some false } := by
    simp [init_state, h]
  have hs1err : (applyUpdate (seedState msg) (init_state msg)).error =
      some "No URL found in the message." := by
    rw [hinit]
    rfl
  have hu2 : llm_router (applyUpdate (seedState msg) (init_state msg)).error o.route =
      { error := some (some "No URL found in the message.")
        route_decision := some (some "__error__") } := by
    rw [hs1err]
    rfl
  have hroute : route_based_on_llm
      (applyUpdate (applyUpdate (seedState msg) (init_state msg))
        (llm_router (applyUpdate (seedState msg) (init_state msg)).error o.route)) =
      RouteTarget.end_ := by
    rw [hu2]
    unfold route_based_on_llm
    simp [applyUpdate, truthyOpt, truthyStr]
  refine ⟨?_, ?_⟩
  · unfold run_agent
    dsimp only
    unfold runGraph
    dsimp only
    rw [hroute]
    dsimp only [pickExtractor]
    rw [hu2]
    decide
  · unfold run_agent
    dsimp only
    unfold runGraph
    dsimp only
    rw [hroute]
    dsimp only [pickExtractor]

theorem no_http_word_terminates_error_witness :
    (pySplitWS "Hello, how are you?").find? (fun w => pyStartsWith w "http") = none ∧
      ((run_agent httpWordOracle "Hello, how are you?").result =
          "Error: No URL found in the message." ∧
        (run_agent httpWordOracle "Hello, how are you?").visited = ["init", "llm_router"]) :=
  ⟨by decide, no_http_word_terminates_error httpWordOracle "Hello, how are you?" (by decide)⟩

theorem pyStrip_example : pyStrip "  a b \n" = "a b" := by decide

theorem pySplitWS_example : pySplitWS "see https://x.com ok" = ["see", "https://x.com", "ok"] := by
  decide

theorem containsSub_example :
    containsSub "application/pdf".toList "text/html; application/pdf".toList = true := by decide

end LinkSummarizer
